import Mathlib

/-!
Shallow embedding of the IdeaPlaceEx non-linear global placer core
(`src/place/NlpGPlacer.h`, `src/place/NlpGPlacer.cpp`,
`src/place/signalPathMgr.h`).

Real-valued quantities (`RealType` in the C++) are modelled as rationals;
database coordinates (`LocType`, `IndexType`) as integers / naturals.
The operator evaluation bodies (`place/different.h`) and the task wrappers
(`place/nlp/nlpTasks.hpp`) are not part of the excerpt; operator
evaluation and partial computation are therefore abstract function
parameters, and the run semantics of the task objects are modelled from
the spec where noted.
-/

namespace IdeaPlace

/-- Axis selector (`Orient2DType` in the C++ code base): horizontal,
vertical, or the "none" value used to address a symmetry-axis variable. -/
inductive Orient2DType where
  | HORIZONTAL
  | VERTICAL
  | NONE
deriving DecidableEq, Repr

/-- Integer point, for database coordinates (`XY<LocType>`). -/
structure IntPt where
  x : ℤ
  y : ℤ
deriving DecidableEq, Repr

/-- Rational point, for scaled optimization-space coordinates
(`XY<RealType>`). -/
structure Pt where
  x : ℚ
  y : ℚ
deriving DecidableEq, Repr

/-- A cell's bounding box in database coordinates (`Box<LocType>`). -/
structure CellBBox where
  xLo : ℤ
  yLo : ℤ
  xHi : ℤ
  yHi : ℤ
deriving DecidableEq, Repr

/-- `Box<LocType>::xLen()`. -/
def CellBBox.xLen (b : CellBBox) : ℤ := b.xHi - b.xLo

/-- `Box<LocType>::yLen()`. -/
def CellBBox.yLen (b : CellBBox) : ℤ := b.yHi - b.yLo

/-- A placement cell: a bounding box and a mutable placement location
(the fields behind `Cell::cellBBox`, `Cell::setXLoc`, `Cell::setYLoc`). -/
structure Cell where
  bbox : CellBBox
  loc : IntPt
deriving DecidableEq, Repr

/-- A pin: its owning cell index and its midpoint location
(`Pin::cellIdx`, `Pin::midLoc`). -/
structure Pin where
  cellIdx : ℕ
  midLoc : IntPt
deriving DecidableEq, Repr

/-- A net: its pin index list and weight (`Net::pinIdx`, `Net::weight`). -/
structure Net where
  pinIdxs : List ℕ
  weight : ℚ
deriving DecidableEq, Repr

/-- A symmetric cell pair of a symmetry group (`SymPair`). -/
structure SymPair where
  firstCell : ℕ
  secondCell : ℕ
deriving DecidableEq, Repr

/-- A symmetry group: its symmetric pairs and self-symmetric cells
(`SymGroup::vSymPairs`, `SymGroup::vSelfSyms`). -/
structure SymGroup where
  vSymPairs : List SymPair
  vSelfSyms : List ℕ
deriving DecidableEq, Repr

/-- A rational axis-aligned box (`Box<RealType>`), used for the scaled
placement boundary. -/
structure Box where
  xLo : ℚ
  yLo : ℚ
  xHi : ℚ
  yHi : ℚ
deriving DecidableEq, Repr

/-- The database global parameters consumed by the placer
(`Parameters::maxWhiteSpace`, `Parameters::isBoundaryConstraintSet` /
`boundaryConstraint`, `Parameters::layoutOffset`). The boundary
constraint is `some` exactly when `isBoundaryConstraintSet()` holds. -/
structure Parameters where
  maxWhiteSpace : ℚ
  boundaryConstraint : Option CellBBox
  layoutOffset : ℤ
deriving DecidableEq, Repr

/-- The placement database interface slice used by the placer: cells,
pins, nets, symmetry groups and global parameters. -/
structure Database where
  cells : List Cell
  pins : List Pin
  nets : List Net
  symGroups : List SymGroup
  params : Parameters
deriving DecidableEq, Repr

/-- `Database::numCells()`. -/
def Database.numCells (db : Database) : ℕ := db.cells.length

/-- `Database::numSymGroups()`. -/
def Database.numSymGroups (db : Database) : ℕ := db.symGroups.length

/-- Default cell used to totalize list indexing (the C++ indexes are
assumed in range; out-of-range access is undefined behaviour there). -/
def defaultCell : Cell := ⟨⟨0, 0, 0, 0⟩, ⟨0, 0⟩⟩

/-- Default pin used to totalize list indexing. -/
def defaultPin : Pin := ⟨0, ⟨0, 0⟩⟩

/-- Default net used to totalize list indexing. -/
def defaultNet : Net := ⟨[], 0⟩

/-- Default symmetry group used to totalize list indexing. -/
def defaultSymGroup : SymGroup := ⟨[], []⟩

/-- One variable binding of a wirelength operator, added by
`op.addVar(cellIdx, offsetX, offsetY)` in `initOperators`. -/
structure HpwlVar where
  cellIdx : ℕ
  offsetX : ℚ
  offsetY : ℚ
deriving DecidableEq, Repr

/-- The data bound into one log-sum-exp wirelength operator
(`diff::LseHpwlDifferentiable`): the net weight and the per-pin
variable bindings.  The evaluation body lives in `place/different.h`
(outside the excerpt) and is kept abstract. -/
structure HpwlOp where
  weight : ℚ
  vars : List HpwlVar
deriving DecidableEq, Repr

/-- The data bound into one pairwise overlap operator
(`diff::CellPairOverlapPenaltyDifferentiable`): the two cell indices
and their scaled widths and heights. -/
structure OvlOp where
  cellIdxI : ℕ
  widthI : ℚ
  heightI : ℚ
  cellIdxJ : ℕ
  widthJ : ℚ
  heightJ : ℚ
deriving DecidableEq, Repr

/-- The data bound into one out-of-boundary operator
(`diff::CellOutOfBoundaryPenaltyDifferentiable`): the cell index, its
scaled width and height, and the boundary box it is checked against
(passed by pointer in the C++). -/
structure OobOp where
  cellIdx : ℕ
  width : ℚ
  height : ℚ
  boundary : Box
deriving DecidableEq, Repr

/-- One symmetric pair registered with an asymmetry operator via
`addSymPair(cellIdxI, cellIdxJ, widthI)`. -/
structure AsymPairRec where
  cellIdxI : ℕ
  cellIdxJ : ℕ
  widthI : ℚ
deriving DecidableEq, Repr

/-- One self-symmetric cell registered with an asymmetry operator via
`addSelfSym(cellIdx, width)`. -/
structure AsymSelfRec where
  cellIdx : ℕ
  width : ℚ
deriving DecidableEq, Repr

/-- The data bound into one asymmetry operator
(`diff::AsymmetryDifferentiable`). -/
structure AsymOp where
  symGrpIdx : ℕ
  pairs : List AsymPairRec
  selfs : List AsymSelfRec
deriving DecidableEq, Repr

/-- The data bound into one signal-path cosine operator
(`diff::CosineDatapathDifferentiable`): three cell indices and the four
scaled pin offsets. -/
structure CosOp where
  sCellIdx : ℕ
  sOffset : Pt
  mCellIdx : ℕ
  midOffsetA : Pt
  midOffsetB : Pt
  tCellIdx : ℕ
  tOffset : Pt
deriving DecidableEq, Repr

/-- A decomposed signal-path segment (`SigPathSeg`, signalPathMgr.h):
four pin indices.  `SigPathMgr::decomposeSignalPaths` is outside the
excerpt, so the segment list is an input of operator construction. -/
structure SigPathSeg where
  sPinIdx : ℕ
  midPinIdxA : ℕ
  midPinIdxB : ℕ
  tPinIdx : ℕ
deriving DecidableEq, Repr

/-- The five operator family collections built by
`NlpGPlacerBase::initOperators` (`_hpwlOps`, `_ovlOps`, `_oobOps`,
`_asymOps`, `_cosOps`). -/
structure Operators where
  hpwlOps : List HpwlOp
  ovlOps : List OvlOp
  oobOps : List OobOp
  asymOps : List AsymOp
  cosOps : List CosOp
deriving DecidableEq, Repr

/-- `NlpGPlacerBase::plIdx(cellIdx, orient)` (NlpGPlacer.h:186-204):
the flat index of a cell's x variable, y variable, or of the symmetry
axis variable.  `MULTI_SYM_GROUP` is not defined, so the `NONE` branch
returns the fixed shared index `2 * numCells`. -/
def plIdx (numCells : ℕ) (cellIdx : ℕ) : Orient2DType → ℕ
  | .HORIZONTAL => cellIdx
  | .VERTICAL => cellIdx + numCells
  | .NONE => 2 * numCells

/-- The `calculatePinOffset` lambda of `initOperators`
(NlpGPlacer.cpp:147-156): the pin midpoint and the owning cell's
bounding-box low corner, both scaled, subtracted. -/
def calculatePinOffset (scale : ℚ) (db : Database) (pinIdx : ℕ) : Pt :=
  let pin := db.pins.getD pinIdx defaultPin
  let cell := db.cells.getD pin.cellIdx defaultCell
  let midLoc : Pt := ⟨(pin.midLoc.x : ℚ) * scale, (pin.midLoc.y : ℚ) * scale⟩
  let cellLoLoc : Pt := ⟨(cell.bbox.xLo : ℚ) * scale, (cell.bbox.yLo : ℚ) * scale⟩
  ⟨midLoc.x - cellLoLoc.x, midLoc.y - cellLoLoc.y⟩

/-- The iteration order of the doubly nested overlap loop of
`initOperators` (NlpGPlacer.cpp:174-192): for each `i` in `[0, n)`, for
each `j` in `[i+1, n)`, the pair `(i, j)`. -/
def ovlPairs (n : ℕ) : List (ℕ × ℕ) :=
  (List.range n).flatMap (fun i => (List.range' (i + 1) (n - (i + 1))).map (fun j => (i, j)))

/-- `NlpGPlacerBase::initOperators` (NlpGPlacer.cpp:116-252): build one
wirelength operator per net, one overlap operator per cell pair `i<j`,
one out-of-boundary operator per cell, one asymmetry operator per
symmetry group, one cosine operator per signal-path segment, in that
order.  `scale` and `boundary` are the fields computed by
`initBoundaryParams`; `segs` is `SigPathMgr(_db).vSegList()`. -/
def initOperators (scale : ℚ) (boundary : Box) (db : Database) (segs : List SigPathSeg) :
    Operators :=
  let hpwlOps := db.nets.map (fun net =>
    { weight := net.weight
      vars := net.pinIdxs.map (fun pinIdx =>
        let pinLoc := calculatePinOffset scale db pinIdx
        { cellIdx := (db.pins.getD pinIdx defaultPin).cellIdx
          offsetX := pinLoc.x
          offsetY := pinLoc.y }) })
  let ovlOps := (ovlPairs db.numCells).map (fun ij =>
    let cellBBoxI := (db.cells.getD ij.1 defaultCell).bbox
    let cellBBoxJ := (db.cells.getD ij.2 defaultCell).bbox
    { cellIdxI := ij.1
      widthI := (cellBBoxI.xLen : ℚ) * scale
      heightI := (cellBBoxI.yLen : ℚ) * scale
      cellIdxJ := ij.2
      widthJ := (cellBBoxJ.xLen : ℚ) * scale
      heightJ := (cellBBoxJ.yLen : ℚ) * scale })
  let oobOps := (List.range db.numCells).map (fun cellIdx =>
    let cellBBox := (db.cells.getD cellIdx defaultCell).bbox
    { cellIdx := cellIdx
      width := (cellBBox.xLen : ℚ) * scale
      height := (cellBBox.yLen : ℚ) * scale
      boundary := boundary })
  let asymOps := (List.range db.numSymGroups).map (fun symGrpIdx =>
    let symGrp := db.symGroups.getD symGrpIdx defaultSymGroup
    { symGrpIdx := symGrpIdx
      pairs := symGrp.vSymPairs.map (fun symPair =>
        { cellIdxI := symPair.firstCell
          cellIdxJ := symPair.secondCell
          widthI := ((db.cells.getD symPair.firstCell defaultCell).bbox.xLen : ℚ) * scale })
      selfs := symGrp.vSelfSyms.map (fun ssCellIdx =>
        { cellIdx := ssCellIdx
          width := ((db.cells.getD ssCellIdx defaultCell).bbox.xLen : ℚ) * scale }) })
  let cosOps := segs.map (fun seg =>
    { sCellIdx := (db.pins.getD seg.sPinIdx defaultPin).cellIdx
      sOffset := calculatePinOffset scale db seg.sPinIdx
      mCellIdx := (db.pins.getD seg.midPinIdxA defaultPin).cellIdx
      midOffsetA := calculatePinOffset scale db seg.midPinIdxA
      midOffsetB := calculatePinOffset scale db seg.midPinIdxB
      tCellIdx := (db.pins.getD seg.tPinIdx defaultPin).cellIdx
      tOffset := calculatePinOffset scale db seg.tPinIdx })
  ⟨hpwlOps, ovlOps, oobOps, asymOps, cosOps⟩

/-- Tag naming the five operator families. -/
inductive OpFamily where
  | hpwl
  | ovl
  | oob
  | asym
  | cos
deriving DecidableEq, Repr

/-- The family construction order of `initOperators`: one tag per
operator instance, emitted by the same loops in the same source order
(nets, then cell pairs, then cells, then symmetry groups, then path
segments). -/
def initOperatorsOrder (db : Database) (segs : List SigPathSeg) : List OpFamily :=
  db.nets.map (fun _ => OpFamily.hpwl)
    ++ (ovlPairs db.numCells).map (fun _ => OpFamily.ovl)
    ++ (List.range db.numCells).map (fun _ => OpFamily.oob)
    ++ (List.range db.numSymGroups).map (fun _ => OpFamily.asym)
    ++ segs.map (fun _ => OpFamily.cos)

/-- Modelled from the spec: `Database::calculateTotalCellArea` (the
database implementation is outside the excerpt); the spec derives the
boundary "from total cell area", the sum of the cell bounding-box
areas. -/
def calculateTotalCellArea (db : Database) : ℤ :=
  (db.cells.map (fun c => c.bbox.xLen * c.bbox.yLen)).sum

/-- The fields computed by `NlpGPlacerBase::initBoundaryParams`. -/
structure BParams where
  scale : ℚ
  totalCellArea : ℚ
  boundary : Box
  defaultSymAxis : ℚ
deriving DecidableEq, Repr

/-- `NlpGPlacerBase::initBoundaryParams` (NlpGPlacer.cpp:42-81).
`sqrtQ` models the library `std::sqrt` on the scaled rationals.  The
result is an `Option` so that a fatal abort inside the function would
be `none`; the source body contains no assertion or abort, so the
translation reaches its end (returns `some`) on every input, including
a zero total cell area, where the C++ computes `sqrt(100/0)` and
continues. -/
def initBoundaryParams (sqrtQ : ℚ → ℚ) (db : Database) : Option BParams :=
  let maxWhiteSpace := db.params.maxWhiteSpace
  let totalCellArea0 : ℚ := (calculateTotalCellArea db : ℚ)
  let scale := sqrtQ (100 / totalCellArea0)
  let totalCellArea1 : ℚ := 100
  let boundary : Box :=
    match db.params.boundaryConstraint with
    | some bb =>
        { xLo := (bb.xLo : ℚ) * scale
          yLo := (bb.yLo : ℚ) * scale
          xHi := (bb.xHi : ℚ) * scale
          yHi := (bb.yHi : ℚ) * scale }
    | none =>
        let aspectRatio : ℚ := 85 / 100
        let tolerentArea := totalCellArea1 * (1 + maxWhiteSpace)
        let xHi := sqrtQ (tolerentArea * aspectRatio)
        let yHi := tolerentArea / xHi
        { xLo := 0, yLo := 0, xHi := xHi, yHi := yHi }
  let totalCellArea2 : ℚ :=
    (db.cells.map (fun c => (c.bbox.xLen : ℚ) * scale * ((c.bbox.yLen : ℚ) * scale))).sum
  some
    { scale := scale
      totalCellArea := totalCellArea2
      boundary := boundary
      defaultSymAxis := (boundary.xLo + boundary.xHi) / 2 }

/-- The partial-derivative record produced by one operator's
`computePartials`: contributions keyed by `(cellIdx, orient)`, to be
scattered through `plIdx`. -/
def PartialsRec : Type := List ((ℕ × Orient2DType) × ℚ)

instance : DecidableEq PartialsRec := by
  unfold PartialsRec
  infer_instance

/-- The mutable state of one `NlpGPlacerFirstOrder` instance: the
database reference, the problem parameters, the variable vector, the
operator collections, the per-task result stores and the objective and
gradient accumulators.  The task objects themselves hold no data beyond
what their `run` bodies read and write, so running the task graph is a
transformation of this state. -/
structure PlacerState where
  db : Database
  numCells : ℕ := 0
  scale : ℚ := 1 / 100
  totalCellArea : ℚ := 0
  boundary : Box := ⟨0, 0, 0, 0⟩
  defaultSymAxis : ℚ := 0
  pl : List ℚ := []
  ops : Operators := ⟨[], [], [], [], []⟩
  evaHpwl : List ℚ := []
  evaOvl : List ℚ := []
  evaOob : List ℚ := []
  evaAsym : List ℚ := []
  evaCos : List ℚ := []
  objHpwl : ℚ := 0
  objOvl : ℚ := 0
  objOob : ℚ := 0
  objAsym : ℚ := 0
  objCos : ℚ := 0
  obj : ℚ := 0
  calcHpwlPartials : List PartialsRec := []
  calcOvlPartials : List PartialsRec := []
  calcOobPartials : List PartialsRec := []
  calcAsymPartials : List PartialsRec := []
  calcCosPartials : List PartialsRec := []
  grad : List ℚ := []
  gradHpwl : List ℚ := []
  gradOvl : List ℚ := []
  gradOob : List ℚ := []
  gradAsym : List ℚ := []
  gradCos : List ℚ := []
deriving DecidableEq

/-- The state of a freshly constructed placer
(`NlpGPlacerBase(Database &db)`): only the database reference is set. -/
def initialState (db : Database) : PlacerState := { db := db }

/-- `NlpGPlacerBase::initBoundaryParams` acting on the placer state:
stores `_scale`, `_totalCellArea`, `_boundary` and `_defaultSymAxis`.
The `none` branch is unreachable (`initBoundaryParams` never aborts). -/
def initBoundaryParamsS (sqrtQ : ℚ → ℚ) (st : PlacerState) : PlacerState :=
  match initBoundaryParams sqrtQ st.db with
  | some bp =>
      { st with
        scale := bp.scale
        totalCellArea := bp.totalCellArea
        boundary := bp.boundary
        defaultSymAxis := bp.defaultSymAxis }
  | none => st

/-- `NlpGPlacerBase::initVariables` (NlpGPlacer.cpp:83-95): record
`_numCells`, size `_pl` to `2*numCells + numSymGroups` (Eigen `resize`
leaves the entries unspecified; they are modelled as `0` and every
entry is overwritten before being read), and, since `MULTI_SYM_GROUP`
is not defined, write `_defaultSymAxis` into the first symmetry slot
`(*_sym)(0)`, i.e. flat position `2*numCells` (a no-op when the vector
has no symmetry slot, where the C++ write is out of bounds). -/
def initVariablesS (st : PlacerState) : PlacerState :=
  let numCells := st.db.numCells
  let size := st.db.numCells * 2 + st.db.numSymGroups
  { st with
    numCells := numCells
    pl := (List.replicate size (0 : ℚ)).set (2 * numCells) st.defaultSymAxis }

/-- `NlpGPlacerBase::initProblem` (NlpGPlacer.cpp:30-35):
`initHyperParams` (sets only the smoothing coefficient `_alpha`, which
feeds the abstract operator evaluation and is not otherwise read), then
`initBoundaryParams`, then `initVariables`. -/
def initProblemS (sqrtQ : ℚ → ℚ) (st : PlacerState) : PlacerState :=
  initVariablesS (initBoundaryParamsS sqrtQ st)

/-- `NlpGPlacerFirstOrder::initFirstOrderGrad` (NlpGPlacer.cpp:479-489):
size `_grad` and the five family gradient vectors to
`2*numCells + numSymGroups` (entries unspecified after Eigen `resize`,
modelled as `0`; each is cleared before any read). -/
def initFirstOrderGradS (st : PlacerState) : PlacerState :=
  let size := st.db.numCells * 2 + st.db.numSymGroups
  { st with
    numCells := st.db.numCells
    grad := List.replicate size (0 : ℚ)
    gradHpwl := List.replicate size (0 : ℚ)
    gradOvl := List.replicate size (0 : ℚ)
    gradOob := List.replicate size (0 : ℚ)
    gradAsym := List.replicate size (0 : ℚ)
    gradCos := List.replicate size (0 : ℚ) }

/-- `NlpGPlacerFirstOrder::initProblem` (NlpGPlacer.cpp:471-477). -/
def initProblemFirstOrderS (sqrtQ : ℚ → ℚ) (st : PlacerState) : PlacerState :=
  initFirstOrderGradS (initProblemS sqrtQ st)

/-- `NlpGPlacerBase::initRandomPlacement` (NlpGPlacer.cpp:97-114).
`rand` models the libc `rand()` output sequence after `srand(6)` (the
PRNG itself is outside the excerpt; the fixed seed makes the sequence
fixed), indexed by call number: cell `idx` consumes calls `2*idx` (x)
and `2*idx + 1` (y).  Each cell coordinate is
`(rand % numCells) * (boundaryHi / numCells)` and every symmetry-axis
slot is set to `_defaultSymAxis`. -/
def initRandomPlacementS (rand : ℕ → ℕ) (st : PlacerState) : PlacerState :=
  let n := st.db.numCells
  let cellPass := (List.range n).foldl
    (fun pl idx =>
      let xRatio := st.boundary.xHi / (n : ℚ)
      let yRatio := st.boundary.yHi / (n : ℚ)
      let x := ((rand (2 * idx) % n : ℕ) : ℚ) * xRatio
      let y := ((rand (2 * idx + 1) % n : ℕ) : ℚ) * yRatio
      (pl.set idx x).set (st.numCells + idx) y)
    st.pl
  let symPass := (List.range st.db.numSymGroups).foldl
    (fun pl idx => pl.set (2 * st.numCells + idx) st.defaultSymAxis)
    cellPass
  { st with pl := symPass }

/-- `NlpGPlacerBase::initOperators` acting on the placer state. -/
def initOperatorsS (segs : List SigPathSeg) (st : PlacerState) : PlacerState :=
  { st with ops := initOperators st.scale st.boundary st.db segs }

/-- Read a variable out of a flat vector: `pl(plIdx(cellIdx, orient))`. -/
def getVarOf (numCells : ℕ) (pl : List ℚ) (cellIdx : ℕ) (orient : Orient2DType) : ℚ :=
  pl.getD (plIdx numCells cellIdx orient) 0

/-- The `getVarFunc` lambda of `initOperators` (NlpGPlacer.cpp:142-145):
read `_pl(plIdx(cellIdx, orient))`; it depends on the state only
through `_numCells` and `_pl`. -/
def getVarFunc (st : PlacerState) : ℕ → Orient2DType → ℚ :=
  getVarOf st.numCells st.pl

/-- The abstract operator bodies from `place/different.h` (outside the
excerpt): for each family, `evaluate` maps the operator data and the
variable accessor to the scalar objective value, and each family's
`computePartials` maps them to the partial-derivative record.  Claims
about the task graph are parametric in these. -/
structure EvalFns where
  evalHpwl : HpwlOp → (ℕ → Orient2DType → ℚ) → ℚ
  evalOvl : OvlOp → (ℕ → Orient2DType → ℚ) → ℚ
  evalOob : OobOp → (ℕ → Orient2DType → ℚ) → ℚ
  evalAsym : AsymOp → (ℕ → Orient2DType → ℚ) → ℚ
  evalCos : CosOp → (ℕ → Orient2DType → ℚ) → ℚ
  partialsHpwl : HpwlOp → (ℕ → Orient2DType → ℚ) → PartialsRec
  partialsOvl : OvlOp → (ℕ → Orient2DType → ℚ) → PartialsRec
  partialsOob : OobOp → (ℕ → Orient2DType → ℚ) → PartialsRec
  partialsAsym : AsymOp → (ℕ → Orient2DType → ℚ) → PartialsRec
  partialsCos : CosOp → (ℕ → Orient2DType → ℚ) → PartialsRec

/-- Modelled from the spec: running one family's evaluation tasks
(`_evaHpwlTasks` etc., NlpGPlacer.cpp:297-324).  `EvaObjTask::run`
(from `place/nlp/nlpTasks.hpp`, outside the excerpt) evaluates its
closure — "evaluate every operator's scalar value" — and stores the
result, retrievable as `taskData().obj()`.  Running every task of a
family stores one value per operator, evaluated at the current
variable vector. -/
def runEvaHpwlTasks (E : EvalFns) (st : PlacerState) : PlacerState :=
  { st with evaHpwl := st.ops.hpwlOps.map (fun op => E.evalHpwl op (getVarFunc st)) }

/-- Overlap family evaluation tasks; see `runEvaHpwlTasks`. -/
def runEvaOvlTasks (E : EvalFns) (st : PlacerState) : PlacerState :=
  { st with evaOvl := st.ops.ovlOps.map (fun op => E.evalOvl op (getVarFunc st)) }

/-- Out-of-boundary family evaluation tasks; see `runEvaHpwlTasks`. -/
def runEvaOobTasks (E : EvalFns) (st : PlacerState) : PlacerState :=
  { st with evaOob := st.ops.oobOps.map (fun op => E.evalOob op (getVarFunc st)) }

/-- Asymmetry family evaluation tasks; see `runEvaHpwlTasks`. -/
def runEvaAsymTasks (E : EvalFns) (st : PlacerState) : PlacerState :=
  { st with evaAsym := st.ops.asymOps.map (fun op => E.evalAsym op (getVarFunc st)) }

/-- Cosine family evaluation tasks; see `runEvaHpwlTasks`. -/
def runEvaCosTasks (E : EvalFns) (st : PlacerState) : PlacerState :=
  { st with evaCos := st.ops.cosOps.map (fun op => E.evalCos op (getVarFunc st)) }

/-- The accumulation loop `acc = 0.0; for eva: acc += eva.taskData().obj()`
of the per-family summation tasks (NlpGPlacer.cpp:326-372). -/
def sumLoop (l : List ℚ) : ℚ := l.foldl (fun acc v => acc + v) 0

/-- `_sumObjHpwlTask` (NlpGPlacer.cpp:328-336): `_objHpwl` becomes the
sum of the stored per-operator evaluation results. -/
def runSumObjHpwlTask (st : PlacerState) : PlacerState :=
  { st with objHpwl := sumLoop st.evaHpwl }

/-- `_sumObjOvlTask` (NlpGPlacer.cpp:337-345). -/
def runSumObjOvlTask (st : PlacerState) : PlacerState :=
  { st with objOvl := sumLoop st.evaOvl }

/-- `_sumObjOobTask` (NlpGPlacer.cpp:346-354). -/
def runSumObjOobTask (st : PlacerState) : PlacerState :=
  { st with objOob := sumLoop st.evaOob }

/-- `_sumObjAsymTask` (NlpGPlacer.cpp:355-363). -/
def runSumObjAsymTask (st : PlacerState) : PlacerState :=
  { st with objAsym := sumLoop st.evaAsym }

/-- `_sumObjCosTask` (NlpGPlacer.cpp:364-372). -/
def runSumObjCosTask (st : PlacerState) : PlacerState :=
  { st with objCos := sumLoop st.evaCos }

/-- `_sumObjAllTask` (NlpGPlacer.cpp:373-382): `_obj = 0` then add the
five family totals. -/
def runSumObjAllTask (st : PlacerState) : PlacerState :=
  { st with obj := 0 + st.objHpwl + st.objOvl + st.objOob + st.objAsym + st.objCos }

/-- `_wrapObjHpwlTask` (NlpGPlacer.cpp:388-396): run every hpwl
evaluation task, then the hpwl summation task. -/
def wrapObjHpwl (E : EvalFns) (st : PlacerState) : PlacerState :=
  runSumObjHpwlTask (runEvaHpwlTasks E st)

/-- `_wrapObjOvlTask` (NlpGPlacer.cpp:397-405). -/
def wrapObjOvl (E : EvalFns) (st : PlacerState) : PlacerState :=
  runSumObjOvlTask (runEvaOvlTasks E st)

/-- `_wrapObjOobTask` (NlpGPlacer.cpp:406-414). -/
def wrapObjOob (E : EvalFns) (st : PlacerState) : PlacerState :=
  runSumObjOobTask (runEvaOobTasks E st)

/-- `_wrapObjAsymTask` (NlpGPlacer.cpp:415-423). -/
def wrapObjAsym (E : EvalFns) (st : PlacerState) : PlacerState :=
  runSumObjAsymTask (runEvaAsymTasks E st)

/-- `_wrapObjCosTask` (NlpGPlacer.cpp:424-432). -/
def wrapObjCos (E : EvalFns) (st : PlacerState) : PlacerState :=
  runSumObjCosTask (runEvaCosTasks E st)

/-- `_wrapObjAllTask` (NlpGPlacer.cpp:433-442): the five family wraps in
source order, then `_sumObjAllTask`. -/
def wrapObjAll (E : EvalFns) (st : PlacerState) : PlacerState :=
  runSumObjAllTask
    (wrapObjCos E (wrapObjAsym E (wrapObjOob E (wrapObjOvl E (wrapObjHpwl E st)))))

/-- A zero vector of the given length, the result of Eigen `setZero`
and the starting point of gradient accumulation. -/
def zeroVec (n : ℕ) : List ℚ := List.replicate n (0 : ℚ)

/-- Add `v` at position `i` of a vector, leaving the length unchanged
(out-of-range positions are a no-op; the C++ indexes in range). -/
def addAt : List ℚ → ℕ → ℚ → List ℚ
  | [], _, _ => []
  | x :: xs, 0, v => (x + v) :: xs
  | x :: xs, i + 1, v => x :: addAt xs i v

/-- Componentwise vector addition (Eigen `+` on equal-length vectors). -/
def vecAdd (a b : List ℚ) : List ℚ := List.zipWith (fun x y => x + y) a b

/-- The six clear tasks (`constructClearGradTasks`,
NlpGPlacer.cpp:568-576): `setZero` on `_grad` and the five family
gradient vectors. -/
def runClearGradTasks (st : PlacerState) : PlacerState :=
  { st with
    grad := zeroVec st.grad.length
    gradHpwl := zeroVec st.gradHpwl.length
    gradOvl := zeroVec st.gradOvl.length
    gradOob := zeroVec st.gradOob.length
    gradAsym := zeroVec st.gradAsym.length
    gradCos := zeroVec st.gradCos.length }

/-- Modelled from the spec: `CalculateOperatorPartialTask::run` (from
`place/nlp/nlpTasks.hpp`, outside the excerpt) — "compute each
operator's partials" — computes and stores the operator's
partial-derivative record at the current variable vector.  Running the
hpwl family's calc tasks (`_calcHpwlPartialTasks`,
NlpGPlacer.cpp:516-519) stores one record per operator. -/
def runCalcHpwlTasks (E : EvalFns) (st : PlacerState) : PlacerState :=
  { st with calcHpwlPartials := st.ops.hpwlOps.map (fun op => E.partialsHpwl op (getVarFunc st)) }

/-- Overlap family partial-computation tasks; see `runCalcHpwlTasks`. -/
def runCalcOvlTasks (E : EvalFns) (st : PlacerState) : PlacerState :=
  { st with calcOvlPartials := st.ops.ovlOps.map (fun op => E.partialsOvl op (getVarFunc st)) }

/-- Out-of-boundary family partial-computation tasks. -/
def runCalcOobTasks (E : EvalFns) (st : PlacerState) : PlacerState :=
  { st with calcOobPartials := st.ops.oobOps.map (fun op => E.partialsOob op (getVarFunc st)) }

/-- Asymmetry family partial-computation tasks. -/
def runCalcAsymTasks (E : EvalFns) (st : PlacerState) : PlacerState :=
  { st with calcAsymPartials := st.ops.asymOps.map (fun op => E.partialsAsym op (getVarFunc st)) }

/-- Cosine family partial-computation tasks. -/
def runCalcCosTasks (E : EvalFns) (st : PlacerState) : PlacerState :=
  { st with calcCosPartials := st.ops.cosOps.map (fun op => E.partialsCos op (getVarFunc st)) }

/-- Modelled from the spec: `UpdateGradientFromPartialTask::run` (from
`place/nlp/nlpTasks.hpp`, outside the excerpt) — "scatter-accumulate
partials into the owning family's gradient vector at the positions
given by the index map": each stored contribution for `(cellIdx,
orient)` is added into the target vector at `plIdx(cellIdx, orient)`
(the `getIdxFunc` wrapper of `constructUpdatePartialsTasks`,
NlpGPlacer.cpp:545). -/
def applyPartials (numCells : ℕ) (g : List ℚ) (p : PartialsRec) : List ℚ :=
  p.foldl (fun g e => addAt g (plIdx numCells e.1.1 e.1.2) e.2) g

/-- Running the hpwl family's update tasks (`_updateHpwlPartialTasks`,
NlpGPlacer.cpp:546-549): scatter-accumulate every stored record into
`_gradHpwl`. -/
def runUpdateHpwlTasks (st : PlacerState) : PlacerState :=
  { st with gradHpwl := st.calcHpwlPartials.foldl (applyPartials st.numCells) st.gradHpwl }

/-- Overlap family update tasks, into `_gradOvl`. -/
def runUpdateOvlTasks (st : PlacerState) : PlacerState :=
  { st with gradOvl := st.calcOvlPartials.foldl (applyPartials st.numCells) st.gradOvl }

/-- Out-of-boundary family update tasks, into `_gradOob`. -/
def runUpdateOobTasks (st : PlacerState) : PlacerState :=
  { st with gradOob := st.calcOobPartials.foldl (applyPartials st.numCells) st.gradOob }

/-- Asymmetry family update tasks, into `_gradAsym`. -/
def runUpdateAsymTasks (st : PlacerState) : PlacerState :=
  { st with gradAsym := st.calcAsymPartials.foldl (applyPartials st.numCells) st.gradAsym }

/-- Cosine family update tasks, into `_gradCos`. -/
def runUpdateCosTasks (st : PlacerState) : PlacerState :=
  { st with gradCos := st.calcCosPartials.foldl (applyPartials st.numCells) st.gradCos }

/-- `_sumGradTask` (NlpGPlacer.cpp:578-581):
`_grad = _gradHpwl + _gradOvl + _gradOob + _gradAsym + _gradCos`. -/
def runSumGradTask (st : PlacerState) : PlacerState :=
  { st with
    grad := vecAdd (vecAdd (vecAdd (vecAdd st.gradHpwl st.gradOvl) st.gradOob) st.gradAsym)
      st.gradCos }

/-- `_wrapCalcGradTask` (NlpGPlacer.cpp:584-608): the six clear tasks,
then for each family its calc tasks followed by its update tasks, then
`_sumGradTask`, in source order. -/
def wrapCalcGrad (E : EvalFns) (st : PlacerState) : PlacerState :=
  runSumGradTask
    (runUpdateCosTasks (runCalcCosTasks E
      (runUpdateAsymTasks (runCalcAsymTasks E
        (runUpdateOobTasks (runCalcOobTasks E
          (runUpdateOvlTasks (runCalcOvlTasks E
            (runUpdateHpwlTasks (runCalcHpwlTasks E
              (runClearGradTasks st)))))))))))

/-- `NlpGPlacerBase::optimize` (NlpGPlacer.cpp:19-23): run
`_wrapObjAllTask` (the `DBG` print is I/O only). -/
def optimizeBase (E : EvalFns) (st : PlacerState) : PlacerState :=
  wrapObjAll E st

/-- `NlpGPlacerFirstOrder::optimize` (NlpGPlacer.cpp:463-469): submit
`_wrapObjAllTask` and `_wrapCalcGradTask` to the taskflow executor and
wait.  The two tasks read `_pl` and write disjoint state (objective
fields vs. partial/gradient fields), so any executor interleaving is
the sequential composition below. -/
def optimizeFirstOrder (E : EvalFns) (st : PlacerState) : PlacerState :=
  wrapCalcGrad E (wrapObjAll E st)

/-- `NlpGPlacerBase::solve` (NlpGPlacer.cpp:9-17) for the base placer:
`initProblem`; `initRandomPlacement`; `initOperators`;
`constructTasks` (builds the task objects whose run semantics are the
`run`/`wrap` functions above and is a no-op on this state); `optimize`.
The function returns `0` and does not call `writeOut`. -/
def solveBase (sqrtQ : ℚ → ℚ) (rand : ℕ → ℕ) (segs : List SigPathSeg) (E : EvalFns)
    (db : Database) : PlacerState :=
  optimizeBase E (initOperatorsS segs (initRandomPlacementS rand (initProblemS sqrtQ
    (initialState db))))

/-- `NlpGPlacerBase::solve` dispatched on a `NlpGPlacerFirstOrder`
instance: the virtual `initProblem` and `optimize` are the first-order
overrides. -/
def solveFirstOrder (sqrtQ : ℚ → ℚ) (rand : ℕ → ℕ) (segs : List SigPathSeg) (E : EvalFns)
    (db : Database) : PlacerState :=
  optimizeFirstOrder E (initOperatorsS segs (initRandomPlacementS rand (initProblemFirstOrderS
    sqrtQ (initialState db))))

/-- `(*_plx)(i)`: the x coordinate of cell `i` in the variable vector. -/
def plxAt (st : PlacerState) (i : ℕ) : ℚ := st.pl.getD i 0

/-- `(*_ply)(i)`: the y coordinate of cell `i`, at flat position
`_numCells + i` (the map offset fixed by `initVariables`). -/
def plyAt (st : PlacerState) (i : ℕ) : ℚ := st.pl.getD (st.numCells + i) 0

/-- `NlpGPlacerBase::writeOut` (NlpGPlacer.cpp:255-280): scan the cell
coordinates for minima starting from `1e10`, then write every cell's
placement origin
`round((v - min)/scale + layoutOffset) - bboxLow` per axis.
`klib::autoRound<LocType>` is outside the excerpt and is modelled from
the spec ("a deterministic rounding rule") as rounding to the nearest
integer. -/
def writeOut (st : PlacerState) : PlacerState :=
  let n := st.db.numCells
  let minX := (List.range n).foldl
    (fun m i => if plxAt st i < m then plxAt st i else m) ((10 : ℚ) ^ 10)
  let minY := (List.range n).foldl
    (fun m i => if plyAt st i < m then plyAt st i else m) ((10 : ℚ) ^ 10)
  let newCells := (List.range n).map (fun cellIdx =>
    let cell := st.db.cells.getD cellIdx defaultCell
    let xLo : ℤ := round ((plxAt st cellIdx - minX) / st.scale + (st.db.params.layoutOffset : ℚ))
    let yLo : ℤ := round ((plyAt st cellIdx - minY) / st.scale + (st.db.params.layoutOffset : ℚ))
    { cell with loc := ⟨xLo - cell.bbox.xLo, yLo - cell.bbox.yLo⟩ })
  { st with db := { st.db with cells := newCells } }

/-- The minimum of a nonempty list of rationals (`0` for the empty
list); the spec's "the minimum of that coordinate over all cells". -/
def qmin (l : List ℚ) : ℚ :=
  match l with
  | [] => 0
  | x :: xs => xs.foldl min x

/-- The x minimum actually used by `writeOut`: the coordinate minimum
clipped from above by the scan's `1e10` start value. -/
def scanMinX (st : PlacerState) : ℚ :=
  min ((10 : ℚ) ^ 10) (qmin ((List.range st.db.numCells).map (plxAt st)))

/-- The y minimum actually used by `writeOut`. -/
def scanMinY (st : PlacerState) : ℚ :=
  min ((10 : ℚ) ^ 10) (qmin ((List.range st.db.numCells).map (plyAt st)))

/-- Default wirelength operator, to totalize list indexing. -/
def defaultHpwlOp : HpwlOp := ⟨0, []⟩

/-- Default out-of-boundary operator, to totalize list indexing. -/
def defaultOobOp : OobOp := ⟨0, 0, 0, ⟨0, 0, 0, 0⟩⟩

/-- Default asymmetry operator, to totalize list indexing. -/
def defaultAsymOp : AsymOp := ⟨0, [], []⟩

/-- A concrete integer square root on the rationals standing in for the
library `sqrt` where an instance is needed; exact on perfect squares of
naturals (the concrete databases below are chosen so that every `sqrt`
argument that matters is such a square). -/
def sqrtFloor (q : ℚ) : ℚ := (Nat.sqrt q.floor.toNat : ℚ)

/-- The square-root stand-in used by the concrete pipeline runs below:
each of those databases has total cell area exactly `100`, so the only
square root the run takes is `sqrt(100/100) = sqrt 1`, where the real
square root is `1`. -/
def sqrtOne : ℚ → ℚ := fun _ => 1

/-- A concrete operator-evaluation instance in which every operator
evaluates to `0` and has no partials, for closed evaluations of the
pipeline. -/
def evalFnsZero : EvalFns :=
  { evalHpwl := fun _ _ => 0
    evalOvl := fun _ _ => 0
    evalOob := fun _ _ => 0
    evalAsym := fun _ _ => 0
    evalCos := fun _ _ => 0
    partialsHpwl := fun _ _ => []
    partialsOvl := fun _ _ => []
    partialsOob := fun _ _ => []
    partialsAsym := fun _ _ => []
    partialsCos := fun _ _ => [] }

/-- A concrete stand-in for the seeded `rand()` sequence (every value
`0`; the concrete statements below are invariant in this choice because
they take the value modulo a cell count of `1`). -/
def randZero : ℕ → ℕ := fun _ => 0

/-- Concrete database with one 10x10 cell placed at `(999, 999)`, no
nets, no symmetry groups, and no boundary constraint violations: total
cell area `100`, so the scale factor is exactly `1`. -/
def dbOneCell : Database :=
  { cells := [⟨⟨0, 0, 10, 10⟩, ⟨999, 999⟩⟩]
    pins := []
    nets := []
    symGroups := []
    params := { maxWhiteSpace := 0, boundaryConstraint := some ⟨0, 0, 10, 10⟩, layoutOffset := 0 } }

/-- Concrete database with one 10x10 cell and a boundary constraint
whose low corner is strictly positive (`[5,10] x [5,10]`). -/
def dbShiftedBoundary : Database :=
  { cells := [⟨⟨0, 0, 10, 10⟩, ⟨0, 0⟩⟩]
    pins := []
    nets := []
    symGroups := []
    params := { maxWhiteSpace := 0, boundaryConstraint := some ⟨5, 5, 10, 10⟩, layoutOffset := 0 } }

/-- Concrete database whose single cell has a degenerate bounding box:
the total cell area is zero. -/
def dbZeroArea : Database :=
  { cells := [⟨⟨0, 0, 0, 0⟩, ⟨0, 0⟩⟩]
    pins := []
    nets := []
    symGroups := []
    params := { maxWhiteSpace := 0, boundaryConstraint := none, layoutOffset := 0 } }

/-- Concrete placer state with one cell whose x coordinate `2*10^10`
exceeds the `1e10` start value of the `writeOut` minimum scan. -/
def stBigCoord : PlacerState :=
  { db := { cells := [⟨⟨0, 0, 1, 1⟩, ⟨0, 0⟩⟩]
            pins := []
            nets := []
            symGroups := []
            params := { maxWhiteSpace := 0, boundaryConstraint := none, layoutOffset := 0 } }
    numCells := 1
    scale := 1
    pl := [20000000000, 5] }

/-- Concrete placer state with one cell at ordinary coordinates, used
to instantiate hypotheses of the `writeOut` theorems. -/
def stSmallCoord : PlacerState :=
  { db := { cells := [⟨⟨0, 0, 1, 1⟩, ⟨0, 0⟩⟩]
            pins := []
            nets := []
            symGroups := []
            params := { maxWhiteSpace := 0, boundaryConstraint := none, layoutOffset := 0 } }
    numCells := 1
    scale := 1
    pl := [3, 4]
    grad := [0, 0]
    gradHpwl := [0, 0]
    gradOvl := [0, 0]
    gradOob := [0, 0]
    gradAsym := [0, 0]
    gradCos := [0, 0] }

/-- Concrete database with two cells, one two-pin net across them, one
symmetry group and one path segment, used to instantiate the operator
construction claims. -/
def dbTwoCells : Database :=
  { cells := [⟨⟨0, 0, 10, 10⟩, ⟨0, 0⟩⟩, ⟨⟨0, 0, 6, 8⟩, ⟨0, 0⟩⟩]
    pins := [⟨0, ⟨2, 3⟩⟩, ⟨1, ⟨1, 4⟩⟩]
    nets := [⟨[0, 1], 2⟩]
    symGroups := [⟨[⟨0, 1⟩], []⟩]
    params := { maxWhiteSpace := 0, boundaryConstraint := some ⟨0, 0, 20, 20⟩, layoutOffset := 0 } }

/-- Concrete one-segment path list for `dbTwoCells`. -/
def segsTwoCells : List SigPathSeg := [⟨0, 1, 1, 0⟩]

/-! ### Helper lemmas -/

theorem sumLoop_eq_sum_aux (l : List ℚ) : ∀ a : ℚ, l.foldl (fun acc v => acc + v) a = a + l.sum := by
  induction l with
  | nil => intro a; simp
  | cons x xs ih => intro a; simp only [List.foldl_cons, List.sum_cons, ih]; ring

theorem sumLoop_eq_sum (l : List ℚ) : sumLoop l = l.sum := by
  simpa using sumLoop_eq_sum_aux l 0

theorem length_addAt (l : List ℚ) (i : ℕ) (v : ℚ) : (addAt l i v).length = l.length := by
  induction l generalizing i with
  | nil => rfl
  | cons x xs ih =>
      cases i with
      | zero => rfl
      | succ i => simpa [addAt] using ih i

theorem length_applyPartials (numCells : ℕ) (p : PartialsRec) :
    ∀ g : List ℚ, (applyPartials numCells g p).length = g.length := by
  induction p with
  | nil => intro g; rfl
  | cons e p ih =>
      intro g
      simpa [applyPartials, List.foldl_cons] using (ih (addAt g (plIdx numCells e.1.1 e.1.2) e.2)).trans
        (length_addAt g (plIdx numCells e.1.1 e.1.2) e.2)

theorem length_foldl_preserve {β : Type} (upd : List ℚ → β → List ℚ)
    (h : ∀ g b, (upd g b).length = g.length) :
    ∀ (L : List β) (g : List ℚ), (L.foldl upd g).length = g.length := by
  intro L
  induction L with
  | nil => intro g; rfl
  | cons b L ih => intro g; simpa [List.foldl_cons] using (ih (upd g b)).trans (h g b)

theorem length_vecAdd (a b : List ℚ) : (vecAdd a b).length = min a.length b.length :=
  List.length_zipWith _ a b

theorem getD_vecAdd (a b : List ℚ) (k : ℕ) (h : k < (vecAdd a b).length) :
    (vecAdd a b).getD k 0 = a.getD k 0 + b.getD k 0 := by
  have hlen := length_vecAdd a b
  have ha : k < a.length := by omega
  have hb : k < b.length := by omega
  rw [List.getD_eq_getElem?_getD, List.getD_eq_getElem?_getD, List.getD_eq_getElem?_getD,
    List.getElem?_eq_getElem h, List.getElem?_eq_getElem ha, List.getElem?_eq_getElem hb]
  simp [vecAdd, List.getElem_zipWith]

theorem getD_map_range {α : Type} (f : ℕ → α) (n i : ℕ) (h : i < n) (d : α) :
    ((List.range n).map f).getD i d = f i := by
  rw [List.getD_eq_getElem?_getD, List.getElem?_map, List.getElem?_range h]
  rfl

theorem getD_map_of_lt {α β : Type} (f : α → β) (l : List α) (k : ℕ) (h : k < l.length)
    (d : β) (dα : α) : (l.map f).getD k d = f (l.getD k dα) := by
  rw [List.getD_eq_getElem?_getD, List.getElem?_map, List.getElem?_eq_getElem h,
    List.getD_eq_getElem?_getD, List.getElem?_eq_getElem h]
  rfl

theorem getD_set_self (l : List ℚ) (i : ℕ) (v : ℚ) (h : i < l.length) :
    (l.set i v).getD i 0 = v := by
  rw [List.getD_eq_getElem?_getD, List.getElem?_set]
  simp [h]

theorem getD_set_ne (l : List ℚ) (i j : ℕ) (v : ℚ) (h : i ≠ j) :
    (l.set i v).getD j 0 = l.getD j 0 := by
  rw [List.getD_eq_getElem?_getD, List.getElem?_set, List.getD_eq_getElem?_getD]
  simp [h]

theorem iteMin (m v : ℚ) : (if v < m then v else m) = min m v := by
  rcases lt_or_le v m with h | h
  · simp [h, min_eq_right h.le]
  · simp [not_lt.mpr h, min_eq_left h]

theorem foldl_min_cons (xs : List ℚ) (a x : ℚ) :
    List.foldl min a (x :: xs) = min a (List.foldl min x xs) := by
  have h := @List.foldl_assoc ℚ min _ xs a x
  simpa [List.foldl_cons] using h

theorem foldl_scanMin (A : ℚ) (l : List ℚ) (h : l ≠ []) :
    List.foldl (fun m v => if v < m then v else m) A l = min A (qmin l) := by
  cases l with
  | nil => exact absurd rfl h
  | cons x xs =>
      have hf : (fun (m v : ℚ) => if v < m then v else m) = fun m v => min m v := by
        funext m v
        exact iteMin m v
      rw [hf, qmin]
      exact foldl_min_cons xs A x

theorem cellPass_length (n : ℕ) (x y : ℕ → ℚ) (m : ℕ) (pl : List ℚ) :
    ((List.range m).foldl (fun pl idx => (pl.set idx (x idx)).set (n + idx) (y idx)) pl).length =
      pl.length := by
  refine length_foldl_preserve _ (fun g b => ?_) (List.range m) pl
  simp [List.length_set]

theorem cellPass_char (n s : ℕ) (x y : ℕ → ℚ) :
    ∀ (m : ℕ) (pl : List ℚ), m ≤ n → pl.length = 2 * n + s → ∀ j,
      ((List.range m).foldl (fun pl idx => (pl.set idx (x idx)).set (n + idx) (y idx)) pl).getD j 0 =
        if j < m then x j else if n ≤ j ∧ j < n + m then y (j - n) else pl.getD j 0 := by
  intro m
  induction m with
  | zero =>
      intro pl _ _ j
      have h0 : ¬ (n ≤ j ∧ j < n) := by omega
      simp [h0]
  | succ m ih =>
      intro pl hm hlen j
      rw [List.range_succ, List.foldl_append, List.foldl_cons, List.foldl_nil]
      have hlenP : ((List.range m).foldl
          (fun pl idx => (pl.set idx (x idx)).set (n + idx) (y idx)) pl).length = 2 * n + s := by
        rw [cellPass_length]; exact hlen
      by_cases hj1 : j = n + m
      · have hlt : n + m < (((List.range m).foldl
            (fun pl idx => (pl.set idx (x idx)).set (n + idx) (y idx)) pl).set m (x m)).length := by
          rw [List.length_set, hlenP]; omega
        rw [hj1, getD_set_self _ _ _ hlt]
        have hc1 : ¬ (n + m < m + 1) := by omega
        have hc2 : n ≤ n + m ∧ n + m < n + (m + 1) := by omega
        simp [hc1, hc2]
      · rw [getD_set_ne _ _ _ _ (fun h => hj1 h.symm)]
        by_cases hj2 : j = m
        · rw [hj2, getD_set_self _ _ _ (by rw [hlenP]; omega)]
          simp
        · rw [getD_set_ne _ _ _ _ (fun h => hj2 h.symm)]
          rw [ih pl (by omega) hlen j]
          rcases lt_trichotomy j m with h | h | h
          · simp [h, Nat.lt_succ_of_lt h]
          · exact absurd h hj2
          · have h1 : ¬ j < m := by omega
            have h2 : ¬ j < m + 1 := by omega
            simp only [h1, h2, if_false]
            by_cases h3 : n ≤ j ∧ j < n + m
            · have h4 : n ≤ j ∧ j < n + (m + 1) := by omega
              simp [h3, h4]
            · have h4 : ¬ (n ≤ j ∧ j < n + (m + 1)) := by omega
              simp [h3, h4]

theorem symPass_length (n : ℕ) (a : ℚ) (m : ℕ) (pl : List ℚ) :
    ((List.range m).foldl (fun pl idx => pl.set (2 * n + idx) a) pl).length = pl.length := by
  refine length_foldl_preserve _ (fun g b => ?_) (List.range m) pl
  simp [List.length_set]

theorem symPass_char (n s : ℕ) (a : ℚ) :
    ∀ (m : ℕ) (pl : List ℚ), m ≤ s → pl.length = 2 * n + s → ∀ j,
      ((List.range m).foldl (fun pl idx => pl.set (2 * n + idx) a) pl).getD j 0 =
        if 2 * n ≤ j ∧ j < 2 * n + m then a else pl.getD j 0 := by
  intro m
  induction m with
  | zero =>
      intro pl _ _ j
      have h0 : ¬ (2 * n ≤ j ∧ j < 2 * n) := by omega
      simp [h0]
  | succ m ih =>
      intro pl hm hlen j
      rw [List.range_succ, List.foldl_append, List.foldl_cons, List.foldl_nil]
      have hlenP : ((List.range m).foldl (fun pl idx => pl.set (2 * n + idx) a) pl).length =
          2 * n + s := by rw [symPass_length]; exact hlen
      by_cases hj : j = 2 * n + m
      · rw [hj, getD_set_self _ _ _ (by rw [hlenP]; omega)]
        have : 2 * n ≤ 2 * n + m ∧ 2 * n + m < 2 * n + (m + 1) := by omega
        simp [this]
      · rw [getD_set_ne _ _ _ _ (fun h => hj h.symm), ih pl (by omega) hlen j]
        by_cases h3 : 2 * n ≤ j ∧ j < 2 * n + m
        · have h4 : 2 * n ≤ j ∧ j < 2 * n + (m + 1) := by omega
          simp [h3, h4]
        · have h4 : ¬ (2 * n ≤ j ∧ j < 2 * n + (m + 1)) := by omega
          simp [h3, h4]

theorem mem_ovlPairs (n i j : ℕ) : (i, j) ∈ ovlPairs n ↔ i < j ∧ j < n := by
  simp only [ovlPairs, List.mem_flatMap, List.mem_map, List.mem_range, List.mem_range']
  constructor
  · rintro ⟨a, ha, b, ⟨k, hk, hb⟩, hab⟩
    have h1 : a = i := congrArg Prod.fst hab
    have h2 : b = j := congrArg Prod.snd hab
    omega
  · rintro ⟨hij, hjn⟩
    exact ⟨i, by omega, j, ⟨j - (i + 1), by omega⟩, rfl⟩

theorem nodup_ovlPairs (n : ℕ) : (ovlPairs n).Nodup := by
  rw [ovlPairs, List.nodup_flatMap]
  constructor
  · intro a _
    refine List.Nodup.map ?_ (List.nodup_range' _ _)
    intro u v huv
    exact congrArg Prod.snd huv
  · refine (List.pairwise_lt_range n).imp ?_
    intro a b hab
    intro p hpa hpb
    simp only [List.mem_map] at hpa hpb
    obtain ⟨u, _, hu⟩ := hpa
    obtain ⟨v, _, hv⟩ := hpb
    have h1 : a = p.1 := by rw [← hu]
    have h2 : b = p.1 := by rw [← hv]
    omega

theorem length_ovlPairs_mul_two (n : ℕ) : (ovlPairs n).length * 2 = n * (n - 1) := by
  have h1 : (ovlPairs n).length = ∑ i ∈ Finset.range n, (n - (i + 1)) := by
    rw [ovlPairs, List.length_flatMap]
    have h2 : (List.map (List.length ∘ fun i =>
        (List.range' (i + 1) (n - (i + 1))).map (fun j => (i, j))) (List.range n)) =
        List.map (fun i => n - (i + 1)) (List.range n) := by
      refine List.map_congr_left ?_
      intro a _
      simp [List.length_range']
    rw [h2]
    rfl
  have h3 : ∑ i ∈ Finset.range n, (n - (i + 1)) = ∑ i ∈ Finset.range n, i := by
    have h4 : ∀ i ∈ Finset.range n, n - (i + 1) = n - 1 - i := by
      intro i _
      omega
    rw [Finset.sum_congr rfl h4]
    exact Finset.sum_range_reflect (fun j => j) n
  rw [h1, h3]
  exact Finset.sum_range_id_mul_two n

theorem length_ovlPairs (n : ℕ) : (ovlPairs n).length = n * (n - 1) / 2 := by
  have := length_ovlPairs_mul_two n
  omega

/-! ### Claim theorems -/

/-- C3: `plIdx` returns `cellId` for the horizontal axis, `cellId +
numCells` for the vertical axis, and the fixed shared index
`2 * numCells` for a symmetry-axis query (multi-group support is
disabled); it is a pure function of its arguments (it is a Lean
function of `numCells`, `cellId` and the axis, with no state), and on
the two cell axes the `(cellId, axis)` mapping is injective into
`[0, 2 * numCells)`. -/
theorem plIdx_spec (numCells cellId : ℕ) :
    plIdx numCells cellId Orient2DType.HORIZONTAL = cellId ∧
    plIdx numCells cellId Orient2DType.VERTICAL = cellId + numCells ∧
    plIdx numCells cellId Orient2DType.NONE = 2 * numCells ∧
    (∀ c₂ o₁ o₂, cellId < numCells → c₂ < numCells → o₁ ≠ Orient2DType.NONE →
      o₂ ≠ Orient2DType.NONE → plIdx numCells cellId o₁ = plIdx numCells c₂ o₂ →
      cellId = c₂ ∧ o₁ = o₂) ∧
    (∀ o, cellId < numCells → o ≠ Orient2DType.NONE → plIdx numCells cellId o < 2 * numCells) := by
  refine ⟨rfl, rfl, rfl, ?_, ?_⟩
  · intro c₂ o₁ o₂ h1 h2 h3 h4 h5
    cases o₁ <;> cases o₂ <;> simp only [plIdx] at h5 <;>
      first
        | exact absurd rfl h3
        | exact absurd rfl h4
        | exact ⟨by omega, rfl⟩
        | exact absurd h5 (by omega)
  · intro o h1 h2
    cases o <;> simp only [plIdx] <;> first | omega | exact absurd rfl h2

/-- Witness for C3 at `numCells = 3`, `cellId = 1`: the injectivity and
range conclusions instantiated at concrete inputs. -/
theorem plIdx_spec_witness :
    ((1 : ℕ) = 1 ∧ Orient2DType.VERTICAL = Orient2DType.VERTICAL) ∧
      plIdx 3 1 Orient2DType.VERTICAL < 2 * 3 :=
  ⟨(plIdx_spec 3 1).2.2.2.1 1 Orient2DType.VERTICAL Orient2DType.VERTICAL (by decide) (by decide)
      (by decide) (by decide) rfl,
    (plIdx_spec 3 1).2.2.2.2 Orient2DType.VERTICAL (by decide) (by decide)⟩

/-- C8 (counterexample): on a database with zero total cell area,
`initBoundaryParams` does not abort — its continuation is reached (the
translation returns `some`), refuting that the solve fails fatally at
boundary-computation time there. -/
theorem initBoundaryParams_zeroArea_continues :
    calculateTotalCellArea dbZeroArea = 0 ∧
      (initBoundaryParams sqrtFloor dbZeroArea).isSome = true := by
  constructor
  · rfl
  · rfl

/-- C8 (amended): `initBoundaryParams` contains no zero-area check: on
every database (zero total cell area included) it runs to completion,
producing a scale factor `sqrt(100 / totalCellArea)` — a degenerate
division when the area is zero — rather than aborting with a
diagnostic. -/
theorem initBoundaryParams_never_fatal (sqrtQ : ℚ → ℚ) (db : Database) :
    ∃ bp, initBoundaryParams sqrtQ db = some bp ∧
      bp.scale = sqrtQ (100 / (calculateTotalCellArea db : ℚ)) :=
  ⟨_, rfl, rfl⟩

/-- C10: `writeOut` mutates only the database's per-cell placement
locations: the variable vector `_pl` (cell coordinates and symmetry
axis entries alike), the scale factor, the boundary, `_numCells` and
`_defaultSymAxis` are unchanged, and on the database side the pins,
nets, symmetry groups, parameters, cell count and every cell bounding
box are unchanged — in particular no symmetry-axis value is written
back to the database, whose cells receive only new placement
locations. -/
theorem writeOut_frame (st : PlacerState) :
    (writeOut st).pl = st.pl ∧
    (writeOut st).scale = st.scale ∧
    (writeOut st).boundary = st.boundary ∧
    (writeOut st).numCells = st.numCells ∧
    (writeOut st).defaultSymAxis = st.defaultSymAxis ∧
    (writeOut st).ops = st.ops ∧
    (writeOut st).db.pins = st.db.pins ∧
    (writeOut st).db.nets = st.db.nets ∧
    (writeOut st).db.symGroups = st.db.symGroups ∧
    (writeOut st).db.params = st.db.params ∧
    (writeOut st).db.cells.length = st.db.cells.length ∧
    (∀ i, i < st.db.cells.length →
      ((writeOut st).db.cells.getD i defaultCell).bbox = (st.db.cells.getD i defaultCell).bbox) := by
  refine ⟨rfl, rfl, rfl, rfl, rfl, rfl, rfl, rfl, rfl, rfl, ?_, ?_⟩
  · simp [writeOut, Database.numCells]
  · intro i hi
    have h1 : ((writeOut st).db.cells).getD i defaultCell =
        (fun cellIdx =>
          let cell := st.db.cells.getD cellIdx defaultCell
          let xLo : ℤ := round ((plxAt st cellIdx -
            (List.range st.db.numCells).foldl
              (fun m i => if plxAt st i < m then plxAt st i else m) ((10 : ℚ) ^ 10)) / st.scale +
            (st.db.params.layoutOffset : ℚ))
          let yLo : ℤ := round ((plyAt st cellIdx -
            (List.range st.db.numCells).foldl
              (fun m i => if plyAt st i < m then plyAt st i else m) ((10 : ℚ) ^ 10)) / st.scale +
            (st.db.params.layoutOffset : ℚ))
          { cell with loc := ⟨xLo - cell.bbox.xLo, yLo - cell.bbox.yLo⟩ }) i := by
      exact getD_map_range _ st.db.numCells i hi defaultCell
    rw [h1]

/-- Witness for C10 at a concrete one-cell state: the bounding box of
cell `0` is unchanged by `writeOut`. -/
theorem writeOut_frame_witness :
    ((writeOut stSmallCoord).db.cells.getD 0 defaultCell).bbox =
      (stSmallCoord.db.cells.getD 0 defaultCell).bbox :=
  (writeOut_frame stSmallCoord).2.2.2.2.2.2.2.2.2.2.2 0 (by decide)

theorem wrapObjAll_untouched (E : EvalFns) (st : PlacerState) :
    (wrapObjAll E st).pl = st.pl ∧ (wrapObjAll E st).ops = st.ops ∧
    (wrapObjAll E st).numCells = st.numCells ∧ (wrapObjAll E st).db = st.db ∧
    (wrapObjAll E st).grad = st.grad ∧ (wrapObjAll E st).gradHpwl = st.gradHpwl ∧
    (wrapObjAll E st).gradOvl = st.gradOvl ∧ (wrapObjAll E st).gradOob = st.gradOob ∧
    (wrapObjAll E st).gradAsym = st.gradAsym ∧ (wrapObjAll E st).gradCos = st.gradCos ∧
    (wrapObjAll E st).scale = st.scale ∧ (wrapObjAll E st).boundary = st.boundary ∧
    (wrapObjAll E st).defaultSymAxis = st.defaultSymAxis := by
  refine ⟨?_, ?_, ?_, ?_, ?_, ?_, ?_, ?_, ?_, ?_, ?_, ?_, ?_⟩ <;>
    simp [wrapObjAll, wrapObjHpwl, wrapObjOvl, wrapObjOob, wrapObjAsym, wrapObjCos,
      runEvaHpwlTasks, runEvaOvlTasks, runEvaOobTasks, runEvaAsymTasks, runEvaCosTasks,
      runSumObjHpwlTask, runSumObjOvlTask, runSumObjOobTask, runSumObjAsymTask, runSumObjCosTask,
      runSumObjAllTask]

theorem wrapCalcGrad_char (E : EvalFns) (st : PlacerState) :
    (wrapCalcGrad E st).gradHpwl =
      (st.ops.hpwlOps.map (fun op => E.partialsHpwl op (getVarFunc st))).foldl
        (applyPartials st.numCells) (zeroVec st.gradHpwl.length) ∧
    (wrapCalcGrad E st).gradOvl =
      (st.ops.ovlOps.map (fun op => E.partialsOvl op (getVarFunc st))).foldl
        (applyPartials st.numCells) (zeroVec st.gradOvl.length) ∧
    (wrapCalcGrad E st).gradOob =
      (st.ops.oobOps.map (fun op => E.partialsOob op (getVarFunc st))).foldl
        (applyPartials st.numCells) (zeroVec st.gradOob.length) ∧
    (wrapCalcGrad E st).gradAsym =
      (st.ops.asymOps.map (fun op => E.partialsAsym op (getVarFunc st))).foldl
        (applyPartials st.numCells) (zeroVec st.gradAsym.length) ∧
    (wrapCalcGrad E st).gradCos =
      (st.ops.cosOps.map (fun op => E.partialsCos op (getVarFunc st))).foldl
        (applyPartials st.numCells) (zeroVec st.gradCos.length) ∧
    (wrapCalcGrad E st).grad =
      vecAdd (vecAdd (vecAdd (vecAdd (wrapCalcGrad E st).gradHpwl (wrapCalcGrad E st).gradOvl)
        (wrapCalcGrad E st).gradOob) (wrapCalcGrad E st).gradAsym) (wrapCalcGrad E st).gradCos ∧
    (wrapCalcGrad E st).pl = st.pl := by
  refine ⟨?_, ?_, ?_, ?_, ?_, ?_, ?_⟩ <;>
    simp [wrapCalcGrad, runSumGradTask, runUpdateCosTasks, runCalcCosTasks, runUpdateAsymTasks,
      runCalcAsymTasks, runUpdateOobTasks, runCalcOobTasks, runUpdateOvlTasks, runCalcOvlTasks,
      runUpdateHpwlTasks, runCalcHpwlTasks, runClearGradTasks, getVarFunc, zeroVec]

theorem wrapCalcGrad_length (E : EvalFns) (st : PlacerState) (L : ℕ)
    (h1 : st.gradHpwl.length = L) (h2 : st.gradOvl.length = L) (h3 : st.gradOob.length = L)
    (h4 : st.gradAsym.length = L) (h5 : st.gradCos.length = L) :
    (wrapCalcGrad E st).gradHpwl.length = L ∧ (wrapCalcGrad E st).gradOvl.length = L ∧
    (wrapCalcGrad E st).gradOob.length = L ∧ (wrapCalcGrad E st).gradAsym.length = L ∧
    (wrapCalcGrad E st).gradCos.length = L ∧ (wrapCalcGrad E st).grad.length = L := by
  obtain ⟨e1, e2, e3, e4, e5, e6, _⟩ := wrapCalcGrad_char E st
  have l1 : (wrapCalcGrad E st).gradHpwl.length = L := by
    rw [e1, length_foldl_preserve _ (fun g p => length_applyPartials st.numCells p g)]
    simpa [zeroVec] using h1
  have l2 : (wrapCalcGrad E st).gradOvl.length = L := by
    rw [e2, length_foldl_preserve _ (fun g p => length_applyPartials st.numCells p g)]
    simpa [zeroVec] using h2
  have l3 : (wrapCalcGrad E st).gradOob.length = L := by
    rw [e3, length_foldl_preserve _ (fun g p => length_applyPartials st.numCells p g)]
    simpa [zeroVec] using h3
  have l4 : (wrapCalcGrad E st).gradAsym.length = L := by
    rw [e4, length_foldl_preserve _ (fun g p => length_applyPartials st.numCells p g)]
    simpa [zeroVec] using h4
  have l5 : (wrapCalcGrad E st).gradCos.length = L := by
    rw [e5, length_foldl_preserve _ (fun g p => length_applyPartials st.numCells p g)]
    simpa [zeroVec] using h5
  refine ⟨l1, l2, l3, l4, l5, ?_⟩
  rw [e6]
  rw [length_vecAdd, length_vecAdd, length_vecAdd, length_vecAdd, l1, l2, l3, l4, l5]
  omega

theorem initRandomPlacementS_pl_length (rand : ℕ → ℕ) (st : PlacerState) :
    (initRandomPlacementS rand st).pl.length = st.pl.length := by
  simp only [initRandomPlacementS]
  rw [length_foldl_preserve _ (fun g b => by simp), length_foldl_preserve _ (fun g b => by simp)]

/-- C1: after the objective task graph runs (`_wrapObjAllTask`: every
per-operator evaluation task, then each family's summation task, then
the grand-sum task), each family total equals the sum of the
`evaluate()` results of that family's operators at the current
variable vector, and the grand objective `_obj` equals the sum of the
five family totals.  The variable vector and the operators are
untouched by the pass. -/
theorem wrapObjAll_spec (E : EvalFns) (st : PlacerState) :
    (wrapObjAll E st).objHpwl =
      (st.ops.hpwlOps.map (fun op => E.evalHpwl op (getVarFunc st))).sum ∧
    (wrapObjAll E st).objOvl =
      (st.ops.ovlOps.map (fun op => E.evalOvl op (getVarFunc st))).sum ∧
    (wrapObjAll E st).objOob =
      (st.ops.oobOps.map (fun op => E.evalOob op (getVarFunc st))).sum ∧
    (wrapObjAll E st).objAsym =
      (st.ops.asymOps.map (fun op => E.evalAsym op (getVarFunc st))).sum ∧
    (wrapObjAll E st).objCos =
      (st.ops.cosOps.map (fun op => E.evalCos op (getVarFunc st))).sum ∧
    (wrapObjAll E st).obj =
      (wrapObjAll E st).objHpwl + (wrapObjAll E st).objOvl + (wrapObjAll E st).objOob +
        (wrapObjAll E st).objAsym + (wrapObjAll E st).objCos ∧
    (wrapObjAll E st).pl = st.pl ∧
    (wrapObjAll E st).ops = st.ops := by
  refine ⟨?_, ?_, ?_, ?_, ?_, ?_, ?_, ?_⟩ <;>
    simp [wrapObjAll, wrapObjHpwl, wrapObjOvl, wrapObjOob, wrapObjAsym, wrapObjCos,
      runEvaHpwlTasks, runEvaOvlTasks, runEvaOobTasks, runEvaAsymTasks, runEvaCosTasks,
      runSumObjHpwlTask, runSumObjOvlTask, runSumObjOobTask, runSumObjAsymTask, runSumObjCosTask,
      runSumObjAllTask, sumLoop_eq_sum, getVarFunc]

/-- C2: after one full gradient pass (`_wrapCalcGradTask`: the clear
tasks, each operator's partial-computation task, the scatter-accumulate
tasks, then the family-sum task), each family gradient vector is the
accumulation, starting from the zero vector, of that family's
operators' partial records scattered at the positions given by
`plIdx`, and the grand gradient `_grad` is the componentwise sum of the
five family gradient vectors. -/
theorem wrapCalcGrad_spec (E : EvalFns) (st : PlacerState) :
    (wrapCalcGrad E st).gradHpwl =
      (st.ops.hpwlOps.map (fun op => E.partialsHpwl op (getVarFunc st))).foldl
        (applyPartials st.numCells) (zeroVec st.gradHpwl.length) ∧
    (wrapCalcGrad E st).gradOvl =
      (st.ops.ovlOps.map (fun op => E.partialsOvl op (getVarFunc st))).foldl
        (applyPartials st.numCells) (zeroVec st.gradOvl.length) ∧
    (wrapCalcGrad E st).gradOob =
      (st.ops.oobOps.map (fun op => E.partialsOob op (getVarFunc st))).foldl
        (applyPartials st.numCells) (zeroVec st.gradOob.length) ∧
    (wrapCalcGrad E st).gradAsym =
      (st.ops.asymOps.map (fun op => E.partialsAsym op (getVarFunc st))).foldl
        (applyPartials st.numCells) (zeroVec st.gradAsym.length) ∧
    (wrapCalcGrad E st).gradCos =
      (st.ops.cosOps.map (fun op => E.partialsCos op (getVarFunc st))).foldl
        (applyPartials st.numCells) (zeroVec st.gradCos.length) ∧
    (wrapCalcGrad E st).grad =
      vecAdd (vecAdd (vecAdd (vecAdd (wrapCalcGrad E st).gradHpwl (wrapCalcGrad E st).gradOvl)
        (wrapCalcGrad E st).gradOob) (wrapCalcGrad E st).gradAsym) (wrapCalcGrad E st).gradCos ∧
    (∀ k, k < (wrapCalcGrad E st).grad.length →
      (wrapCalcGrad E st).grad.getD k 0 =
        (wrapCalcGrad E st).gradHpwl.getD k 0 + (wrapCalcGrad E st).gradOvl.getD k 0 +
          (wrapCalcGrad E st).gradOob.getD k 0 + (wrapCalcGrad E st).gradAsym.getD k 0 +
          (wrapCalcGrad E st).gradCos.getD k 0) ∧
    (wrapCalcGrad E st).pl = st.pl := by
  obtain ⟨e1, e2, e3, e4, e5, hgrad, hpl⟩ := wrapCalcGrad_char E st
  refine ⟨e1, e2, e3, e4, e5, hgrad, ?_, hpl⟩
  intro k hk
  rw [hgrad] at hk ⊢
  have h4 : k < (vecAdd (vecAdd (vecAdd (wrapCalcGrad E st).gradHpwl
        (wrapCalcGrad E st).gradOvl) (wrapCalcGrad E st).gradOob)
      (wrapCalcGrad E st).gradAsym).length := by
    have := length_vecAdd (vecAdd (vecAdd (vecAdd (wrapCalcGrad E st).gradHpwl
      (wrapCalcGrad E st).gradOvl) (wrapCalcGrad E st).gradOob)
      (wrapCalcGrad E st).gradAsym) (wrapCalcGrad E st).gradCos
    omega
  have h3 : k < (vecAdd (vecAdd (wrapCalcGrad E st).gradHpwl (wrapCalcGrad E st).gradOvl)
      (wrapCalcGrad E st).gradOob).length := by
    have := length_vecAdd (vecAdd (vecAdd (wrapCalcGrad E st).gradHpwl
      (wrapCalcGrad E st).gradOvl) (wrapCalcGrad E st).gradOob) (wrapCalcGrad E st).gradAsym
    omega
  have h2 : k < (vecAdd (wrapCalcGrad E st).gradHpwl (wrapCalcGrad E st).gradOvl).length := by
    have := length_vecAdd (vecAdd (wrapCalcGrad E st).gradHpwl (wrapCalcGrad E st).gradOvl)
      (wrapCalcGrad E st).gradOob
    omega
  rw [getD_vecAdd _ _ _ hk, getD_vecAdd _ _ _ h4, getD_vecAdd _ _ _ h3, getD_vecAdd _ _ _ h2]

/-- Witness for C2: the componentwise-sum conclusion instantiated at a
concrete evaluation instance, state and component. -/
theorem wrapCalcGrad_spec_witness :
    (wrapCalcGrad evalFnsZero stSmallCoord).grad.getD 0 0 =
      (wrapCalcGrad evalFnsZero stSmallCoord).gradHpwl.getD 0 0 +
        (wrapCalcGrad evalFnsZero stSmallCoord).gradOvl.getD 0 0 +
        (wrapCalcGrad evalFnsZero stSmallCoord).gradOob.getD 0 0 +
        (wrapCalcGrad evalFnsZero stSmallCoord).gradAsym.getD 0 0 +
        (wrapCalcGrad evalFnsZero stSmallCoord).gradCos.getD 0 0 := by
  refine (wrapCalcGrad_spec evalFnsZero stSmallCoord).2.2.2.2.2.2.1 0 ?_
  decide

/-- C4: after first-order problem initialization the variable vector
`_pl`, the gradient vector `_grad` and every per-family gradient vector
have the same length `2 * (cell count) + (symmetry group count)`, and
no later operation of the solve (random placement, operator
construction, the objective pass, the gradient pass) changes these
lengths: they still hold of the final state of `solve`. -/
theorem gradient_vector_lengths (sqrtQ : ℚ → ℚ) (rand : ℕ → ℕ) (segs : List SigPathSeg)
    (E : EvalFns) (db : Database) :
    ((initProblemFirstOrderS sqrtQ (initialState db)).pl.length =
        2 * db.numCells + db.numSymGroups ∧
      (initProblemFirstOrderS sqrtQ (initialState db)).grad.length =
        2 * db.numCells + db.numSymGroups ∧
      (initProblemFirstOrderS sqrtQ (initialState db)).gradHpwl.length =
        2 * db.numCells + db.numSymGroups ∧
      (initProblemFirstOrderS sqrtQ (initialState db)).gradOvl.length =
        2 * db.numCells + db.numSymGroups ∧
      (initProblemFirstOrderS sqrtQ (initialState db)).gradOob.length =
        2 * db.numCells + db.numSymGroups ∧
      (initProblemFirstOrderS sqrtQ (initialState db)).gradAsym.length =
        2 * db.numCells + db.numSymGroups ∧
      (initProblemFirstOrderS sqrtQ (initialState db)).gradCos.length =
        2 * db.numCells + db.numSymGroups) ∧
    ((solveFirstOrder sqrtQ rand segs E db).pl.length = 2 * db.numCells + db.numSymGroups ∧
      (solveFirstOrder sqrtQ rand segs E db).grad.length = 2 * db.numCells + db.numSymGroups ∧
      (solveFirstOrder sqrtQ rand segs E db).gradHpwl.length =
        2 * db.numCells + db.numSymGroups ∧
      (solveFirstOrder sqrtQ rand segs E db).gradOvl.length =
        2 * db.numCells + db.numSymGroups ∧
      (solveFirstOrder sqrtQ rand segs E db).gradOob.length =
        2 * db.numCells + db.numSymGroups ∧
      (solveFirstOrder sqrtQ rand segs E db).gradAsym.length =
        2 * db.numCells + db.numSymGroups ∧
      (solveFirstOrder sqrtQ rand segs E db).gradCos.length =
        2 * db.numCells + db.numSymGroups) := by
  have base : (initProblemFirstOrderS sqrtQ (initialState db)).pl.length =
      2 * db.numCells + db.numSymGroups ∧
      (initProblemFirstOrderS sqrtQ (initialState db)).grad.length =
        2 * db.numCells + db.numSymGroups ∧
      (initProblemFirstOrderS sqrtQ (initialState db)).gradHpwl.length =
        2 * db.numCells + db.numSymGroups ∧
      (initProblemFirstOrderS sqrtQ (initialState db)).gradOvl.length =
        2 * db.numCells + db.numSymGroups ∧
      (initProblemFirstOrderS sqrtQ (initialState db)).gradOob.length =
        2 * db.numCells + db.numSymGroups ∧
      (initProblemFirstOrderS sqrtQ (initialState db)).gradAsym.length =
        2 * db.numCells + db.numSymGroups ∧
      (initProblemFirstOrderS sqrtQ (initialState db)).gradCos.length =
        2 * db.numCells + db.numSymGroups := by
    refine ⟨?_, ?_, ?_, ?_, ?_, ?_, ?_⟩ <;>
      (simp [initProblemFirstOrderS, initProblemS, initVariablesS, initBoundaryParamsS,
        initFirstOrderGradS, initialState, initBoundaryParams]
       try omega)
  refine ⟨base, ?_⟩
  obtain ⟨b1, b2, b3, b4, b5, b6, b7⟩ := base
  have hstR : (initRandomPlacementS rand (initProblemFirstOrderS sqrtQ
      (initialState db))).pl.length = 2 * db.numCells + db.numSymGroups := by
    rw [initRandomPlacementS_pl_length]
    exact b1
  obtain ⟨wpl, _, _, _, _, wh, wo, wb, wa, wc, _, _, _⟩ :=
    wrapObjAll_untouched E (initOperatorsS segs (initRandomPlacementS rand
      (initProblemFirstOrderS sqrtQ (initialState db))))
  have hOpsH : (initOperatorsS segs (initRandomPlacementS rand (initProblemFirstOrderS sqrtQ
      (initialState db)))).gradHpwl = (initProblemFirstOrderS sqrtQ
      (initialState db)).gradHpwl := rfl
  have hOpsO : (initOperatorsS segs (initRandomPlacementS rand (initProblemFirstOrderS sqrtQ
      (initialState db)))).gradOvl = (initProblemFirstOrderS sqrtQ
      (initialState db)).gradOvl := rfl
  have hOpsB : (initOperatorsS segs (initRandomPlacementS rand (initProblemFirstOrderS sqrtQ
      (initialState db)))).gradOob = (initProblemFirstOrderS sqrtQ
      (initialState db)).gradOob := rfl
  have hOpsA : (initOperatorsS segs (initRandomPlacementS rand (initProblemFirstOrderS sqrtQ
      (initialState db)))).gradAsym = (initProblemFirstOrderS sqrtQ
      (initialState db)).gradAsym := rfl
  have hOpsC : (initOperatorsS segs (initRandomPlacementS rand (initProblemFirstOrderS sqrtQ
      (initialState db)))).gradCos = (initProblemFirstOrderS sqrtQ
      (initialState db)).gradCos := rfl
  have hOpsP : (initOperatorsS segs (initRandomPlacementS rand (initProblemFirstOrderS sqrtQ
      (initialState db)))).pl = (initRandomPlacementS rand (initProblemFirstOrderS sqrtQ
      (initialState db))).pl := rfl
  obtain ⟨l1, l2, l3, l4, l5, l6⟩ :=
    wrapCalcGrad_length E (wrapObjAll E (initOperatorsS segs (initRandomPlacementS rand
        (initProblemFirstOrderS sqrtQ (initialState db)))))
      (2 * db.numCells + db.numSymGroups)
      (by rw [wh, hOpsH]; exact b3) (by rw [wo, hOpsO]; exact b4) (by rw [wb, hOpsB]; exact b5)
      (by rw [wa, hOpsA]; exact b6) (by rw [wc, hOpsC]; exact b7)
  have hplF : (wrapCalcGrad E (wrapObjAll E (initOperatorsS segs (initRandomPlacementS rand
      (initProblemFirstOrderS sqrtQ (initialState db)))))).pl =
      (wrapObjAll E (initOperatorsS segs (initRandomPlacementS rand
        (initProblemFirstOrderS sqrtQ (initialState db))))).pl :=
    (wrapCalcGrad_char E _).2.2.2.2.2.2
  have hsolve : solveFirstOrder sqrtQ rand segs E db =
      wrapCalcGrad E (wrapObjAll E (initOperatorsS segs (initRandomPlacementS rand
        (initProblemFirstOrderS sqrtQ (initialState db))))) := rfl
  rw [hsolve]
  refine ⟨?_, l6, l1, l2, l3, l4, l5⟩
  rw [hplF, wpl, hOpsP]
  exact hstR

theorem initBoundaryParamsS_db (sqrtQ : ℚ → ℚ) (st : PlacerState) :
    (initBoundaryParamsS sqrtQ st).db = st.db := by
  unfold initBoundaryParamsS
  cases initBoundaryParams sqrtQ st.db <;> rfl

theorem wrapCalcGrad_db (E : EvalFns) (st : PlacerState) :
    (wrapCalcGrad E st).db = st.db := by
  simp [wrapCalcGrad, runSumGradTask, runUpdateCosTasks, runCalcCosTasks, runUpdateAsymTasks,
    runCalcAsymTasks, runUpdateOobTasks, runCalcOobTasks, runUpdateOvlTasks, runCalcOvlTasks,
    runUpdateHpwlTasks, runCalcHpwlTasks, runClearGradTasks]

theorem initProblemS_db (sqrtQ : ℚ → ℚ) (st : PlacerState) :
    (initProblemS sqrtQ st).db = st.db := by
  show (initVariablesS (initBoundaryParamsS sqrtQ st)).db = st.db
  have h : (initVariablesS (initBoundaryParamsS sqrtQ st)).db =
      (initBoundaryParamsS sqrtQ st).db := rfl
  rw [h, initBoundaryParamsS_db]

theorem solveBase_db (sqrtQ : ℚ → ℚ) (rand : ℕ → ℕ) (segs : List SigPathSeg)
    (E : EvalFns) (db : Database) : (solveBase sqrtQ rand segs E db).db = db := by
  show (wrapObjAll E (initOperatorsS segs (initRandomPlacementS rand
    (initProblemS sqrtQ (initialState db))))).db = db
  rw [(wrapObjAll_untouched E _).2.2.2.1]
  show (initProblemS sqrtQ (initialState db)).db = db
  rw [initProblemS_db]
  rfl

theorem solveFirstOrder_db (sqrtQ : ℚ → ℚ) (rand : ℕ → ℕ) (segs : List SigPathSeg)
    (E : EvalFns) (db : Database) : (solveFirstOrder sqrtQ rand segs E db).db = db := by
  show (wrapCalcGrad E (wrapObjAll E (initOperatorsS segs (initRandomPlacementS rand
    (initProblemFirstOrderS sqrtQ (initialState db)))))).db = db
  rw [wrapCalcGrad_db, (wrapObjAll_untouched E _).2.2.2.1]
  show (initFirstOrderGradS (initProblemS sqrtQ (initialState db))).db = db
  have h : (initFirstOrderGradS (initProblemS sqrtQ (initialState db))).db =
      (initProblemS sqrtQ (initialState db)).db := rfl
  rw [h, initProblemS_db]
  rfl

theorem round_of_eq_intCast {q : ℚ} {z : ℤ} (h : q = (z : ℚ)) : round q = z := by
  rw [h, round_intCast]

theorem writeOut_minX_eq (st : PlacerState) (h : 0 < st.db.numCells) :
    (List.range st.db.numCells).foldl
      (fun m i => if plxAt st i < m then plxAt st i else m) ((10 : ℚ) ^ 10) = scanMinX st := by
  have hne : (List.range st.db.numCells).map (plxAt st) ≠ [] := by
    intro hcon
    have hlen := congrArg List.length hcon
    simp at hlen
    omega
  have h1 : (List.range st.db.numCells).foldl
      (fun m i => if plxAt st i < m then plxAt st i else m) ((10 : ℚ) ^ 10) =
      ((List.range st.db.numCells).map (plxAt st)).foldl
        (fun m v => if v < m then v else m) ((10 : ℚ) ^ 10) :=
    (List.foldl_map (plxAt st) (fun m v => if v < m then v else m)
      (List.range st.db.numCells) ((10 : ℚ) ^ 10)).symm
  rw [h1, foldl_scanMin _ _ hne]
  rfl

theorem writeOut_minY_eq (st : PlacerState) (h : 0 < st.db.numCells) :
    (List.range st.db.numCells).foldl
      (fun m i => if plyAt st i < m then plyAt st i else m) ((10 : ℚ) ^ 10) = scanMinY st := by
  have hne : (List.range st.db.numCells).map (plyAt st) ≠ [] := by
    intro hcon
    have hlen := congrArg List.length hcon
    simp at hlen
    omega
  have h1 : (List.range st.db.numCells).foldl
      (fun m i => if plyAt st i < m then plyAt st i else m) ((10 : ℚ) ^ 10) =
      ((List.range st.db.numCells).map (plyAt st)).foldl
        (fun m v => if v < m then v else m) ((10 : ℚ) ^ 10) :=
    (List.foldl_map (plyAt st) (fun m v => if v < m then v else m)
      (List.range st.db.numCells) ((10 : ℚ) ^ 10)).symm
  rw [h1, foldl_scanMin _ _ hne]
  rfl

theorem writeOut_cell (st : PlacerState) (i : ℕ) (hi : i < st.db.numCells) :
    (writeOut st).db.cells.getD i defaultCell =
      { st.db.cells.getD i defaultCell with
        loc := ⟨round ((plxAt st i - scanMinX st) / st.scale + (st.db.params.layoutOffset : ℚ)) -
            (st.db.cells.getD i defaultCell).bbox.xLo,
          round ((plyAt st i - scanMinY st) / st.scale + (st.db.params.layoutOffset : ℚ)) -
            (st.db.cells.getD i defaultCell).bbox.yLo⟩ } := by
  have h0 : 0 < st.db.numCells := by omega
  simp only [writeOut]
  rw [getD_map_range _ _ _ hi]
  rw [writeOut_minX_eq st h0, writeOut_minY_eq st h0]

/-- C5 (counterexample): with a single cell at x coordinate
`2 * 10^10`, `writeOut` does not use the minimum of the coordinates
over the cells: its minimum scan starts at `1e10` and the cell is
written at `round((v - 10^10)/scale + layoutOffset) - bboxLow =
10^10`, not at `round((v - v)/scale + layoutOffset) - bboxLow = 0` as
the claim's formula demands. -/
theorem writeOut_min_counterexample :
    0 < stBigCoord.db.numCells ∧
    ¬ (((writeOut stBigCoord).db.cells.getD 0 defaultCell).loc.x =
      round ((plxAt stBigCoord 0 - qmin ((List.range stBigCoord.db.numCells).map
          (plxAt stBigCoord))) / stBigCoord.scale + (stBigCoord.db.params.layoutOffset : ℚ)) -
        (stBigCoord.db.cells.getD 0 defaultCell).bbox.xLo) := by
  have hq : qmin ((List.range stBigCoord.db.numCells).map (plxAt stBigCoord)) =
      20000000000 := rfl
  have hcell := writeOut_cell stBigCoord 0 (by decide)
  have hscan : scanMinX stBigCoord = 10 ^ 10 := by
    rw [scanMinX, hq]
    rw [min_eq_left (by norm_num)]
  refine ⟨by decide, ?_⟩
  rw [hcell, hq]
  have hplx : plxAt stBigCoord 0 = 20000000000 := rfl
  have hL : round ((plxAt stBigCoord 0 - scanMinX stBigCoord) / stBigCoord.scale +
      (stBigCoord.db.params.layoutOffset : ℚ)) = (10000000000 : ℤ) := by
    refine round_of_eq_intCast ?_
    rw [hplx, hscan]
    show ((20000000000 : ℚ) - 10 ^ 10) / 1 + ((0 : ℤ) : ℚ) = ((10000000000 : ℤ) : ℚ)
    norm_num
  have hR : round ((plxAt stBigCoord 0 - 20000000000) / stBigCoord.scale +
      (stBigCoord.db.params.layoutOffset : ℚ)) = (0 : ℤ) := by
    refine round_of_eq_intCast ?_
    rw [hplx]
    show ((20000000000 : ℚ) - 20000000000) / 1 + ((0 : ℤ) : ℚ) = ((0 : ℤ) : ℚ)
    norm_num
  show ¬ (round ((plxAt stBigCoord 0 - scanMinX stBigCoord) / stBigCoord.scale +
      (stBigCoord.db.params.layoutOffset : ℚ)) -
      (stBigCoord.db.cells.getD 0 defaultCell).bbox.xLo =
    round ((plxAt stBigCoord 0 - 20000000000) / stBigCoord.scale +
      (stBigCoord.db.params.layoutOffset : ℚ)) -
      (stBigCoord.db.cells.getD 0 defaultCell).bbox.xLo)
  rw [hL, hR]
  decide

/-- C5 (amended): for every state with at least one cell, `writeOut`
writes each cell's placement origin as
`round((v - m)/scale + layoutOffset) - bboxLow` per axis, where `m` is
the minimum of the constant `1e10` and the minimum of that coordinate
over all cells (the scan starts at `1e10`); in particular a cell
attaining the coordinate minimum is written at
`layoutOffset - bboxLow` provided that minimum is at most `1e10`. -/
theorem writeOut_spec (st : PlacerState) (i : ℕ) (hi : i < st.db.numCells) :
    (((writeOut st).db.cells.getD i defaultCell).loc.x =
      round ((plxAt st i - scanMinX st) / st.scale + (st.db.params.layoutOffset : ℚ)) -
        (st.db.cells.getD i defaultCell).bbox.xLo) ∧
    (((writeOut st).db.cells.getD i defaultCell).loc.y =
      round ((plyAt st i - scanMinY st) / st.scale + (st.db.params.layoutOffset : ℚ)) -
        (st.db.cells.getD i defaultCell).bbox.yLo) ∧
    (plxAt st i = qmin ((List.range st.db.numCells).map (plxAt st)) →
      qmin ((List.range st.db.numCells).map (plxAt st)) ≤ 10 ^ 10 →
      ((writeOut st).db.cells.getD i defaultCell).loc.x =
        st.db.params.layoutOffset - (st.db.cells.getD i defaultCell).bbox.xLo) := by
  have hcell := writeOut_cell st i hi
  refine ⟨by rw [hcell], by rw [hcell], ?_⟩
  intro hmin hle
  rw [hcell]
  have hscan : scanMinX st = plxAt st i := by
    rw [scanMinX, ← hmin] at *
    exact min_eq_right (hmin ▸ hle)
  have hzero : (plxAt st i - scanMinX st) / st.scale + (st.db.params.layoutOffset : ℚ) =
      ((st.db.params.layoutOffset : ℤ) : ℚ) := by
    rw [hscan, sub_self, zero_div, zero_add]
  show round ((plxAt st i - scanMinX st) / st.scale + (st.db.params.layoutOffset : ℚ)) -
      (st.db.cells.getD i defaultCell).bbox.xLo =
    st.db.params.layoutOffset - (st.db.cells.getD i defaultCell).bbox.xLo
  rw [round_of_eq_intCast hzero]

/-- Witness for C5 at a concrete one-cell state. -/
theorem writeOut_spec_witness :
    ((writeOut stSmallCoord).db.cells.getD 0 defaultCell).loc.x =
      round ((plxAt stSmallCoord 0 - scanMinX stSmallCoord) / stSmallCoord.scale +
        (stSmallCoord.db.params.layoutOffset : ℚ)) -
        (stSmallCoord.db.cells.getD 0 defaultCell).bbox.xLo :=
  (writeOut_spec stSmallCoord 0 (by decide)).1

theorem solveBase_pl (sqrtQ : ℚ → ℚ) (rand : ℕ → ℕ) (segs : List SigPathSeg)
    (E : EvalFns) (db : Database) :
    (solveBase sqrtQ rand segs E db).pl =
      (initRandomPlacementS rand (initProblemS sqrtQ (initialState db))).pl := by
  show (wrapObjAll E (initOperatorsS segs (initRandomPlacementS rand
    (initProblemS sqrtQ (initialState db))))).pl = _
  rw [(wrapObjAll_untouched E _).1]
  rfl

theorem solveBase_scale (sqrtQ : ℚ → ℚ) (rand : ℕ → ℕ) (segs : List SigPathSeg)
    (E : EvalFns) (db : Database) :
    (solveBase sqrtQ rand segs E db).scale =
      (initBoundaryParamsS sqrtQ (initialState db)).scale := by
  show (wrapObjAll E (initOperatorsS segs (initRandomPlacementS rand
    (initProblemS sqrtQ (initialState db))))).scale = _
  rw [(wrapObjAll_untouched E _).2.2.2.2.2.2.2.2.2.2.1]
  rfl

theorem solveBase_numCells (sqrtQ : ℚ → ℚ) (rand : ℕ → ℕ) (segs : List SigPathSeg)
    (E : EvalFns) (db : Database) :
    (solveBase sqrtQ rand segs E db).numCells = db.numCells := by
  show (wrapObjAll E (initOperatorsS segs (initRandomPlacementS rand
    (initProblemS sqrtQ (initialState db))))).numCells = _
  rw [(wrapObjAll_untouched E _).2.2.1]
  show (initBoundaryParamsS sqrtQ (initialState db)).db.numCells = db.numCells
  rw [initBoundaryParamsS_db]
  rfl

/-- C6 (counterexample): on a concrete one-cell database whose cell
starts at `(999, 999)`, `solve` returns with the database location
still `(999, 999)`, while writing back the final variable vector would
place the cell at `(0, 0)`: the database locations are not updated
from the variable vector when `solve()` returns. -/
theorem solve_leaves_stale_location :
    ((solveBase sqrtOne randZero [] evalFnsZero dbOneCell).db.cells.getD 0 defaultCell).loc =
      ⟨999, 999⟩ ∧
    ((writeOut (solveBase sqrtOne randZero [] evalFnsZero dbOneCell)).db.cells.getD 0
      defaultCell).loc = ⟨0, 0⟩ ∧
    (⟨999, 999⟩ : IntPt) ≠ ⟨0, 0⟩ := by
  have hdb := solveBase_db sqrtOne randZero [] evalFnsZero dbOneCell
  have hpl : (solveBase sqrtOne randZero [] evalFnsZero dbOneCell).pl = [0, 0] := by
    rw [solveBase_pl]
    simp [initRandomPlacementS, initProblemS, initVariablesS, initBoundaryParamsS,
      initBoundaryParams, initialState, dbOneCell, Database.numCells, Database.numSymGroups,
      randZero, sqrtOne, List.range_succ]
  have hscale : (solveBase sqrtOne randZero [] evalFnsZero dbOneCell).scale = 1 := by
    rw [solveBase_scale]
    rfl
  have hnum : (solveBase sqrtOne randZero [] evalFnsZero dbOneCell).numCells = 1 := by
    rw [solveBase_numCells]
    rfl
  have hn : 0 < (solveBase sqrtOne randZero [] evalFnsZero dbOneCell).db.numCells := by
    rw [hdb]
    decide
  have hplx : plxAt (solveBase sqrtOne randZero [] evalFnsZero dbOneCell) 0 = 0 := by
    rw [plxAt, hpl]
    rfl
  have hply : plyAt (solveBase sqrtOne randZero [] evalFnsZero dbOneCell) 0 = 0 := by
    rw [plyAt, hnum, hpl]
    rfl
  have hsx : scanMinX (solveBase sqrtOne randZero [] evalFnsZero dbOneCell) = 0 := by
    rw [scanMinX, hdb]
    have hq : qmin ((List.range dbOneCell.numCells).map
        (plxAt (solveBase sqrtOne randZero [] evalFnsZero dbOneCell))) =
        plxAt (solveBase sqrtOne randZero [] evalFnsZero dbOneCell) 0 := rfl
    rw [hq, hplx]
    rw [min_eq_right (by norm_num)]
  have hsy : scanMinY (solveBase sqrtOne randZero [] evalFnsZero dbOneCell) = 0 := by
    rw [scanMinY, hdb]
    have hq : qmin ((List.range dbOneCell.numCells).map
        (plyAt (solveBase sqrtOne randZero [] evalFnsZero dbOneCell))) =
        plyAt (solveBase sqrtOne randZero [] evalFnsZero dbOneCell) 0 := rfl
    rw [hq, hply]
    rw [min_eq_right (by norm_num)]
  refine ⟨by rw [hdb]; rfl, ?_, by decide⟩
  have hcell := writeOut_cell (solveBase sqrtOne randZero [] evalFnsZero dbOneCell) 0 hn
  rw [hcell]
  have hoff : ((solveBase sqrtOne randZero [] evalFnsZero dbOneCell).db.params.layoutOffset :
      ℚ) = ((0 : ℤ) : ℚ) := by rw [hdb]; rfl
  have hX : round ((plxAt (solveBase sqrtOne randZero [] evalFnsZero dbOneCell) 0 -
      scanMinX (solveBase sqrtOne randZero [] evalFnsZero dbOneCell)) /
      (solveBase sqrtOne randZero [] evalFnsZero dbOneCell).scale +
      ((solveBase sqrtOne randZero [] evalFnsZero dbOneCell).db.params.layoutOffset : ℚ)) =
      (0 : ℤ) := by
    refine round_of_eq_intCast ?_
    rw [hplx, hsx, hscale, hoff]
    norm_num
  have hY : round ((plyAt (solveBase sqrtOne randZero [] evalFnsZero dbOneCell) 0 -
      scanMinY (solveBase sqrtOne randZero [] evalFnsZero dbOneCell)) /
      (solveBase sqrtOne randZero [] evalFnsZero dbOneCell).scale +
      ((solveBase sqrtOne randZero [] evalFnsZero dbOneCell).db.params.layoutOffset : ℚ)) =
      (0 : ℤ) := by
    refine round_of_eq_intCast ?_
    rw [hply, hsy, hscale, hoff]
    norm_num
  show (⟨round _ - ((solveBase sqrtOne randZero [] evalFnsZero dbOneCell).db.cells.getD 0
      defaultCell).bbox.xLo, round _ - ((solveBase sqrtOne randZero [] evalFnsZero
      dbOneCell).db.cells.getD 0 defaultCell).bbox.yLo⟩ : IntPt) = ⟨0, 0⟩
  rw [hX, hY, hdb]
  decide

/-- C6 (amended): `solve()` performs no write-back at all: for every
database the database is unchanged when `solve()` returns (its body is
`initProblem; initRandomPlacement; initOperators; constructTasks;
optimize; return 0`, with no call to `writeOut`); write-back exists
only as the separate `writeOut` member, which `solve` never invokes,
in either the base or the first-order placer. -/
theorem solve_db_unchanged (sqrtQ : ℚ → ℚ) (rand : ℕ → ℕ) (segs : List SigPathSeg)
    (E : EvalFns) (db : Database) :
    (solveBase sqrtQ rand segs E db).db = db ∧
    (solveFirstOrder sqrtQ rand segs E db).db = db :=
  ⟨solveBase_db sqrtQ rand segs E db, solveFirstOrder_db sqrtQ rand segs E db⟩

theorem initProblemS_numCells (sqrtQ : ℚ → ℚ) (st : PlacerState) :
    (initProblemS sqrtQ st).numCells = st.db.numCells := by
  show (initBoundaryParamsS sqrtQ st).db.numCells = st.db.numCells
  rw [initBoundaryParamsS_db]

theorem initProblemS_pl (sqrtQ : ℚ → ℚ) (st : PlacerState) :
    (initProblemS sqrtQ st).pl =
      (List.replicate (st.db.numCells * 2 + st.db.numSymGroups) (0 : ℚ)).set
        (2 * st.db.numCells) (initBoundaryParamsS sqrtQ st).defaultSymAxis := by
  show (initVariablesS (initBoundaryParamsS sqrtQ st)).pl = _
  simp only [initVariablesS, initBoundaryParamsS_db]

theorem initBoundaryParamsS_axis (sqrtQ : ℚ → ℚ) (st : PlacerState) :
    (initBoundaryParamsS sqrtQ st).defaultSymAxis =
      ((initBoundaryParamsS sqrtQ st).boundary.xLo +
        (initBoundaryParamsS sqrtQ st).boundary.xHi) / 2 := by
  simp only [initBoundaryParamsS, initBoundaryParams]

theorem initRandomPlacementS_char (rand : ℕ → ℕ) (st : PlacerState)
    (hnum : st.numCells = st.db.numCells)
    (hlen : st.pl.length = 2 * st.db.numCells + st.db.numSymGroups) (j : ℕ) :
    (initRandomPlacementS rand st).pl.getD j 0 =
      if j < st.db.numCells then
        ((rand (2 * j) % st.db.numCells : ℕ) : ℚ) * (st.boundary.xHi / (st.db.numCells : ℚ))
      else if st.db.numCells ≤ j ∧ j < 2 * st.db.numCells then
        ((rand (2 * (j - st.db.numCells) + 1) % st.db.numCells : ℕ) : ℚ) *
          (st.boundary.yHi / (st.db.numCells : ℚ))
      else if 2 * st.db.numCells ≤ j ∧ j < 2 * st.db.numCells + st.db.numSymGroups then
        st.defaultSymAxis
      else st.pl.getD j 0 := by
  simp only [initRandomPlacementS, hnum]
  rw [symPass_char st.db.numCells st.db.numSymGroups st.defaultSymAxis st.db.numSymGroups _
    le_rfl (by rw [cellPass_length]; exact hlen) j]
  rw [cellPass_char st.db.numCells st.db.numSymGroups
    (fun idx => ((rand (2 * idx) % st.db.numCells : ℕ) : ℚ) *
      (st.boundary.xHi / (st.db.numCells : ℚ)))
    (fun idx => ((rand (2 * idx + 1) % st.db.numCells : ℕ) : ℚ) *
      (st.boundary.yHi / (st.db.numCells : ℚ)))
    st.db.numCells st.pl le_rfl hlen j]
  rcases lt_trichotomy j st.db.numCells with h1 | h1 | h1
  · have hc1 : ¬ (2 * st.db.numCells ≤ j ∧ j < 2 * st.db.numCells + st.db.numSymGroups) := by
      omega
    simp [h1, hc1]
  · by_cases hz : st.db.numCells = 0
    · have hc1 := hz
      have hj : j = 0 := by omega
      by_cases hs : 0 < st.db.numSymGroups
      · have hc2 : 2 * st.db.numCells ≤ j ∧ j < 2 * st.db.numCells + st.db.numSymGroups := by
          omega
        have hc3 : ¬ j < st.db.numCells := by omega
        have hc4 : ¬ (st.db.numCells ≤ j ∧ j < st.db.numCells + st.db.numCells) := by omega
        have hc5 : ¬ (st.db.numCells ≤ j ∧ j < 2 * st.db.numCells) := by omega
        simp only [if_pos hc2, if_neg hc3, if_neg hc4, if_neg hc5]
      · have hc2 : ¬ (2 * st.db.numCells ≤ j ∧ j < 2 * st.db.numCells + st.db.numSymGroups) := by
          omega
        have hc3 : ¬ j < st.db.numCells := by omega
        have hc4 : ¬ (st.db.numCells ≤ j ∧ j < st.db.numCells + st.db.numCells) := by omega
        have hc5 : ¬ (st.db.numCells ≤ j ∧ j < 2 * st.db.numCells) := by omega
        simp only [if_neg hc2, if_neg hc3, if_neg hc4, if_neg hc5]
    · have hc1 : ¬ (2 * st.db.numCells ≤ j ∧ j < 2 * st.db.numCells + st.db.numSymGroups) := by
        omega
      have hc2 : ¬ j < st.db.numCells := by omega
      have hc3 : st.db.numCells ≤ j ∧ j < st.db.numCells + st.db.numCells := by omega
      have hc4 : st.db.numCells ≤ j ∧ j < 2 * st.db.numCells := by omega
      simp only [if_neg hc1, if_neg hc2, if_pos hc3, if_pos hc4]
  · have hc3 : ¬ j < st.db.numCells := by omega
    have hc4 : ¬ (st.db.numCells ≤ j ∧ j < st.db.numCells + st.db.numCells) ↔
        ¬ (st.db.numCells ≤ j ∧ j < 2 * st.db.numCells) := by omega
    by_cases h2 : st.db.numCells ≤ j ∧ j < 2 * st.db.numCells
    · have h2' : st.db.numCells ≤ j ∧ j < st.db.numCells + st.db.numCells := by omega
      have hc1 : ¬ (2 * st.db.numCells ≤ j ∧ j < 2 * st.db.numCells + st.db.numSymGroups) := by
        omega
      simp only [if_neg hc1, if_neg hc3, if_pos h2', if_pos h2]
    · have h2' : ¬ (st.db.numCells ≤ j ∧ j < st.db.numCells + st.db.numCells) := by omega
      by_cases h3 : 2 * st.db.numCells ≤ j ∧ j < 2 * st.db.numCells + st.db.numSymGroups
      · simp only [if_pos h3, if_neg hc3, if_neg h2', if_neg h2]
      · simp only [if_neg h3, if_neg hc3, if_neg h2', if_neg h2]

theorem randCoord_bounds (r n : ℕ) (H : ℚ) (hn : 0 < n) (hH : 0 ≤ H) :
    0 ≤ ((r % n : ℕ) : ℚ) * (H / (n : ℚ)) ∧ ((r % n : ℕ) : ℚ) * (H / (n : ℚ)) ≤ H := by
  have hnQ : (0 : ℚ) < (n : ℚ) := by exact_mod_cast hn
  constructor
  · exact mul_nonneg (by positivity) (div_nonneg hH hnQ.le)
  · have h1 : ((r % n : ℕ) : ℚ) ≤ (n : ℚ) := by
      have h2 := Nat.mod_lt r hn
      exact_mod_cast h2.le
    calc ((r % n : ℕ) : ℚ) * (H / n) ≤ (n : ℚ) * (H / n) :=
          mul_le_mul_of_nonneg_right h1 (div_nonneg hH hnQ.le)
      _ = H := by field_simp

/-- C7 (counterexample): with a boundary constraint `[5,10] x [5,10]`
(low corner away from the origin) and one cell, the initial placement
puts the cell's x at `(rand % 1) * xHi / 1 = 0 < 5 = boundary.xLo`
(whatever the random values are, since the modulus is the cell count
`1`): the initial value does not lie within the boundary rectangle. -/
theorem initRandomPlacement_out_of_boundary :
    (initRandomPlacementS randZero (initProblemS sqrtOne
      (initialState dbShiftedBoundary))).boundary.xLo = 5 ∧
    (initRandomPlacementS randZero (initProblemS sqrtOne
      (initialState dbShiftedBoundary))).pl.getD 0 0 = 0 ∧
    ¬ ((initRandomPlacementS randZero (initProblemS sqrtOne
        (initialState dbShiftedBoundary))).boundary.xLo ≤
      (initRandomPlacementS randZero (initProblemS sqrtOne
        (initialState dbShiftedBoundary))).pl.getD 0 0) := by
  have hlo : (initRandomPlacementS randZero (initProblemS sqrtOne
      (initialState dbShiftedBoundary))).boundary.xLo = ((5 : ℤ) : ℚ) * 1 := rfl
  have hpl : (initRandomPlacementS randZero (initProblemS sqrtOne
      (initialState dbShiftedBoundary))).pl = [0, 0] := by
    simp [initRandomPlacementS, initProblemS, initVariablesS, initBoundaryParamsS,
      initBoundaryParams, initialState, dbShiftedBoundary, Database.numCells,
      Database.numSymGroups, randZero, sqrtOne, List.range_succ]
  refine ⟨by rw [hlo]; norm_num, by rw [hpl]; rfl, ?_⟩
  rw [hlo, hpl]
  show ¬ (((5 : ℤ) : ℚ) * 1 ≤ ([0, 0] : List ℚ).getD 0 0)
  have h0 : (([0, 0] : List ℚ).getD 0 0) = 0 := rfl
  rw [h0]
  norm_num

/-- C7 (amended): the default initial placement (a fixed seeded
pseudo-random sequence, modelled by the `rand` parameter) assigns every
cell's x value into `[0, boundary.xHi]` and every y value into
`[0, boundary.yHi]` (when those bounds are nonnegative) — hence within
the boundary rectangle exactly when the boundary's low corner is the
origin, as with the automatically derived boundary — and sets every
symmetry-axis variable to the boundary's x midpoint
`(boundary.xLo + boundary.xHi) / 2`. -/
theorem initRandomPlacement_spec (sqrtQ : ℚ → ℚ) (rand : ℕ → ℕ) (db : Database) :
    (∀ idx, idx < db.numCells →
      0 ≤ (initRandomPlacementS rand (initProblemS sqrtQ (initialState db))).boundary.xHi →
      0 ≤ (initRandomPlacementS rand (initProblemS sqrtQ (initialState db))).pl.getD idx 0 ∧
        (initRandomPlacementS rand (initProblemS sqrtQ (initialState db))).pl.getD idx 0 ≤
          (initRandomPlacementS rand (initProblemS sqrtQ (initialState db))).boundary.xHi) ∧
    (∀ idx, idx < db.numCells →
      0 ≤ (initRandomPlacementS rand (initProblemS sqrtQ (initialState db))).boundary.yHi →
      0 ≤ (initRandomPlacementS rand (initProblemS sqrtQ
          (initialState db))).pl.getD (db.numCells + idx) 0 ∧
        (initRandomPlacementS rand (initProblemS sqrtQ
            (initialState db))).pl.getD (db.numCells + idx) 0 ≤
          (initRandomPlacementS rand (initProblemS sqrtQ (initialState db))).boundary.yHi) ∧
    (∀ idx, idx < db.numSymGroups →
      (initRandomPlacementS rand (initProblemS sqrtQ
          (initialState db))).pl.getD (2 * db.numCells + idx) 0 =
        ((initRandomPlacementS rand (initProblemS sqrtQ (initialState db))).boundary.xLo +
          (initRandomPlacementS rand (initProblemS sqrtQ
            (initialState db))).boundary.xHi) / 2) := by
  have hdb : (initProblemS sqrtQ (initialState db)).db = db := initProblemS_db sqrtQ _
  have hnum : (initProblemS sqrtQ (initialState db)).numCells =
      (initProblemS sqrtQ (initialState db)).db.numCells := by
    rw [initProblemS_numCells, hdb]
    rfl
  have hlen : (initProblemS sqrtQ (initialState db)).pl.length =
      2 * (initProblemS sqrtQ (initialState db)).db.numCells +
        (initProblemS sqrtQ (initialState db)).db.numSymGroups := by
    rw [initProblemS_pl, hdb, List.length_set, List.length_replicate]
    show (initialState db).db.numCells * 2 + (initialState db).db.numSymGroups = _
    show db.numCells * 2 + db.numSymGroups = _
    omega
  have hchar := initRandomPlacementS_char rand (initProblemS sqrtQ (initialState db)) hnum hlen
  have hbx : (initRandomPlacementS rand (initProblemS sqrtQ (initialState db))).boundary =
      (initProblemS sqrtQ (initialState db)).boundary := rfl
  refine ⟨?_, ?_, ?_⟩
  · intro idx hidx hH
    have h := hchar idx
    rw [hdb] at h
    rw [if_pos hidx] at h
    have hb := randCoord_bounds (rand (2 * idx)) db.numCells
      ((initProblemS sqrtQ (initialState db)).boundary.xHi) (by omega) (by exact hH)
    rw [hbx]
    constructor
    · rw [h]; exact hb.1
    · rw [h]; exact hb.2
  · intro idx hidx hH
    have h := hchar (db.numCells + idx)
    rw [hdb] at h
    have hc1 : ¬ (db.numCells + idx < db.numCells) := by omega
    have hc2 : db.numCells ≤ db.numCells + idx ∧ db.numCells + idx < 2 * db.numCells := by omega
    rw [if_neg hc1, if_pos hc2] at h
    have hsub : db.numCells + idx - db.numCells = idx := by omega
    rw [hsub] at h
    have hb := randCoord_bounds (rand (2 * idx + 1)) db.numCells
      ((initProblemS sqrtQ (initialState db)).boundary.yHi) (by omega) (by exact hH)
    rw [hbx]
    constructor
    · rw [h]; exact hb.1
    · rw [h]; exact hb.2
  · intro idx hidx
    have h := hchar (2 * db.numCells + idx)
    rw [hdb] at h
    have hc1 : ¬ (2 * db.numCells + idx < db.numCells) := by omega
    have hc2 : ¬ (db.numCells ≤ 2 * db.numCells + idx ∧
        2 * db.numCells + idx < 2 * db.numCells) := by omega
    have hc3 : 2 * db.numCells ≤ 2 * db.numCells + idx ∧
        2 * db.numCells + idx < 2 * db.numCells + db.numSymGroups := by omega
    rw [if_neg hc1, if_neg hc2, if_pos hc3] at h
    rw [h, hbx]
    show (initProblemS sqrtQ (initialState db)).defaultSymAxis = _
    show (initBoundaryParamsS sqrtQ (initialState db)).defaultSymAxis = _
    rw [initBoundaryParamsS_axis]
    rfl

/-- Witness for C7 at a concrete two-cell database with one symmetry
group: the x bound at cell `0` and the symmetry-axis value at group
`0`. -/
theorem initRandomPlacement_spec_witness :
    (0 ≤ (initRandomPlacementS randZero (initProblemS sqrtOne
        (initialState dbTwoCells))).pl.getD 0 0 ∧
      (initRandomPlacementS randZero (initProblemS sqrtOne
          (initialState dbTwoCells))).pl.getD 0 0 ≤
        (initRandomPlacementS randZero (initProblemS sqrtOne
          (initialState dbTwoCells))).boundary.xHi) ∧
    (initRandomPlacementS randZero (initProblemS sqrtOne
        (initialState dbTwoCells))).pl.getD (2 * dbTwoCells.numCells + 0) 0 =
      ((initRandomPlacementS randZero (initProblemS sqrtOne
          (initialState dbTwoCells))).boundary.xLo +
        (initRandomPlacementS randZero (initProblemS sqrtOne
          (initialState dbTwoCells))).boundary.xHi) / 2 :=
  ⟨(initRandomPlacement_spec sqrtOne randZero dbTwoCells).1 0 (by decide)
      (by
        have h : (initRandomPlacementS randZero (initProblemS sqrtOne
            (initialState dbTwoCells))).boundary.xHi = ((20 : ℤ) : ℚ) * 1 := rfl
        rw [h]
        norm_num),
    (initRandomPlacement_spec sqrtOne randZero dbTwoCells).2.2 0 (by decide)⟩

/-- C9: `initOperators` creates exactly one wirelength operator per
net — bound to every pin of the net with offset
`scale * pin.midpoint - scale * cell.bboxLowCorner` — exactly one
overlap operator per unordered cell pair `i < j`
(`numCells * (numCells - 1) / 2` in total, each pair occurring once),
exactly one out-of-boundary operator per cell, exactly one asymmetry
operator per symmetry group, and exactly one signal-path operator per
decomposed path segment, constructing the families in that order
(`initOperatorsOrder` records the family of each constructed operator
in construction order). -/
theorem initOperators_spec (scale : ℚ) (boundary : Box) (db : Database)
    (segs : List SigPathSeg) :
    (initOperators scale boundary db segs).hpwlOps.length = db.nets.length ∧
    (∀ k, k < db.nets.length →
      ((initOperators scale boundary db segs).hpwlOps.getD k defaultHpwlOp).weight =
        (db.nets.getD k defaultNet).weight ∧
      ((initOperators scale boundary db segs).hpwlOps.getD k defaultHpwlOp).vars =
        (db.nets.getD k defaultNet).pinIdxs.map (fun pinIdx =>
          { cellIdx := (db.pins.getD pinIdx defaultPin).cellIdx
            offsetX := scale * ((db.pins.getD pinIdx defaultPin).midLoc.x : ℚ) -
              scale * ((db.cells.getD (db.pins.getD pinIdx defaultPin).cellIdx
                defaultCell).bbox.xLo : ℚ)
            offsetY := scale * ((db.pins.getD pinIdx defaultPin).midLoc.y : ℚ) -
              scale * ((db.cells.getD (db.pins.getD pinIdx defaultPin).cellIdx
                defaultCell).bbox.yLo : ℚ) })) ∧
    (initOperators scale boundary db segs).ovlOps.length =
      db.numCells * (db.numCells - 1) / 2 ∧
    ((initOperators scale boundary db segs).ovlOps.map
      (fun op => (op.cellIdxI, op.cellIdxJ))).Nodup ∧
    (∀ i j : ℕ, (i, j) ∈ (initOperators scale boundary db segs).ovlOps.map
        (fun op => (op.cellIdxI, op.cellIdxJ)) ↔ i < j ∧ j < db.numCells) ∧
    (initOperators scale boundary db segs).oobOps.length = db.numCells ∧
    (∀ c, c < db.numCells →
      ((initOperators scale boundary db segs).oobOps.getD c defaultOobOp).cellIdx = c ∧
      ((initOperators scale boundary db segs).oobOps.getD c defaultOobOp).boundary =
        boundary) ∧
    (initOperators scale boundary db segs).asymOps.length = db.numSymGroups ∧
    (∀ g, g < db.numSymGroups →
      ((initOperators scale boundary db segs).asymOps.getD g defaultAsymOp).symGrpIdx = g) ∧
    (initOperators scale boundary db segs).cosOps.length = segs.length ∧
    initOperatorsOrder db segs =
      List.replicate db.nets.length OpFamily.hpwl ++
        List.replicate (db.numCells * (db.numCells - 1) / 2) OpFamily.ovl ++
        List.replicate db.numCells OpFamily.oob ++
        List.replicate db.numSymGroups OpFamily.asym ++
        List.replicate segs.length OpFamily.cos := by
  have hmapmap : ∀ (l : List (ℕ × ℕ)) (f : ℕ × ℕ → OvlOp),
      (∀ p, ((f p).cellIdxI, (f p).cellIdxJ) = p) →
      (l.map f).map (fun op => (op.cellIdxI, op.cellIdxJ)) = l := by
    intro l f hf
    rw [List.map_map]
    calc l.map ((fun op : OvlOp => (op.cellIdxI, op.cellIdxJ)) ∘ f) = l.map id :=
          List.map_congr_left (fun p _ => hf p)
      _ = l := List.map_id l
  have hproj : ((initOperators scale boundary db segs).ovlOps.map
      (fun op => (op.cellIdxI, op.cellIdxJ))) = ovlPairs db.numCells :=
    hmapmap (ovlPairs db.numCells) _ (fun p => rfl)
  refine ⟨by simp [initOperators], ?_, ?_, ?_, ?_, by simp [initOperators], ?_,
    by simp [initOperators], ?_, by simp [initOperators], ?_⟩
  · intro k hk
    constructor
    · show ((db.nets.map _).getD k defaultHpwlOp).weight = _
      rw [getD_map_of_lt _ _ _ hk _ defaultNet]
    · show ((db.nets.map _).getD k defaultHpwlOp).vars = _
      rw [getD_map_of_lt _ _ _ hk _ defaultNet]
      refine List.map_congr_left ?_
      intro pinIdx _
      show HpwlVar.mk _ _ _ = HpwlVar.mk _ _ _
      simp only [HpwlVar.mk.injEq, calculatePinOffset]
      refine ⟨trivial, by ring, by ring⟩
  · show ((ovlPairs db.numCells).map _).length = _
    rw [List.length_map, length_ovlPairs]
  · rw [hproj]
    exact nodup_ovlPairs db.numCells
  · intro i j
    rw [hproj]
    exact mem_ovlPairs db.numCells i j
  · intro c hc
    constructor
    · show (((List.range db.numCells).map _).getD c defaultOobOp).cellIdx = c
      rw [getD_map_range _ _ _ hc]
    · show (((List.range db.numCells).map _).getD c defaultOobOp).boundary = boundary
      rw [getD_map_range _ _ _ hc]
  · intro g hg
    show (((List.range db.numSymGroups).map _).getD g defaultAsymOp).symGrpIdx = g
    rw [getD_map_range _ _ _ hg]
  · simp [initOperatorsOrder, List.map_const', length_ovlPairs, List.length_range]

/-- Witness for C9 at a concrete two-cell database: the per-net weight
binding at net `0` and the out-of-boundary binding at cell `0`. -/
theorem initOperators_spec_witness :
    ((initOperators 1 ⟨0, 0, 20, 20⟩ dbTwoCells segsTwoCells).hpwlOps.getD 0
        defaultHpwlOp).weight = (dbTwoCells.nets.getD 0 defaultNet).weight ∧
    ((initOperators 1 ⟨0, 0, 20, 20⟩ dbTwoCells segsTwoCells).oobOps.getD 0
        defaultOobOp).cellIdx = 0 :=
  ⟨((initOperators_spec 1 ⟨0, 0, 20, 20⟩ dbTwoCells segsTwoCells).2.1 0 (by decide)).1,
    ((initOperators_spec 1 ⟨0, 0, 20, 20⟩ dbTwoCells
      segsTwoCells).2.2.2.2.2.2.1 0 (by decide)).1⟩

end IdeaPlace
